import Mathlib

/-!
# Verification of the `luaot` bytecode-to-C translator (`src/luaot.c`)

This file is a shallow embedding of the code generator in `src/luaot.c`
(the Lua-AOT compiler of the `lua-aot-5.4` repository) together with
proofs and refutations of the specification's claims about it.

Modelling conventions:

* Output produced through the C helpers `print`/`println` (which write to
  `output_file`) is modelled as a list of string chunks, one chunk per
  `print`/`println` call (a `println` chunk ends in a newline).  The bytes
  of the generated file are the concatenation of the chunks.
* `printf`-style formatting (`%d`, `%02d`, `%3d`, `%03d`, `%08x`, `%-9s`,
  `%s`, `%c`, `%p`, `LUA_NUMBER_FMT = "%.14g"`, `LUA_INTEGER_FMT`) is
  modelled by explicit, executable rendering functions below, following
  the C standard library semantics.
* C `double` values (`lua_Number`) are modelled by their exact rational
  value as a fraction `Frac` (an integer numerator and a positive natural
  denominator); every finite double is such a rational.
* Machine integers are modelled by `Nat`/`Int`; instruction words are
  natural numbers below `2^32`.
-/

set_option linter.unusedVariables false
set_option maxRecDepth 100000

/-! ## Decimal / hexadecimal rendering helpers (printf semantics) -/

/-- Little helper: decimal digits of `n`, most significant first.
Fuel-based so that it reduces in the kernel; `natDigitsAux f n` is the
digit list of `n` whenever `n < f`. -/
def natDigitsAux : Nat → Nat → List Nat
  | 0, _ => []
  | f + 1, n => if n < 10 then [n] else natDigitsAux f (n / 10) ++ [n % 10]

/-- Decimal digits of `n`, most significant first. -/
def natDigits (n : Nat) : List Nat := natDigitsAux (n + 1) n

def digitChar (d : Nat) : Char := Char.ofNat (48 + d)

def digitChars (l : List Nat) : List Char := l.map digitChar

/-- `printf("%u")` / decimal rendering of a natural number. -/
def fmtNat (n : Nat) : String := String.mk (digitChars (natDigits n))

/-- `printf("%d")` / `printf("%lld")` rendering of an integer. -/
def fmtInt (i : Int) : String :=
  if i < 0 then "-" ++ fmtNat i.natAbs else fmtNat i.natAbs

/-- `printf("%02d")`: zero-pad to (total) width 2. -/
def fmt02 (i : Int) : String :=
  let s := fmtInt i
  if s.length < 2 then "0" ++ s else s

/-- `printf("%3d")`: space-pad on the left to width 3. -/
def fmt3 (n : Nat) : String :=
  let ds := digitChars (natDigits n)
  String.mk (List.replicate (3 - ds.length) ' ' ++ ds)

/-- `printf("%03d")`: zero-pad on the left to width 3. -/
def fmt03 (n : Nat) : String :=
  let ds := digitChars (natDigits n)
  String.mk (List.replicate (3 - ds.length) '0' ++ ds)

/-- `printf("%-9s")`: left-justify, space-pad on the right to width 9. -/
def fmtL9 (s : String) : String :=
  String.mk (s.data ++ List.replicate (9 - s.data.length) ' ')

def hexDigitChar (d : Nat) : Char :=
  if d < 10 then Char.ofNat (48 + d) else Char.ofNat (97 + (d - 10))

def hexDigitsAux : Nat → Nat → List Nat
  | 0, _ => []
  | f + 1, n => if n < 16 then [n] else hexDigitsAux f (n / 16) ++ [n % 16]

def hexDigits (n : Nat) : List Nat := hexDigitsAux (n + 1) n

/-- `printf("%08x")`: lowercase hexadecimal, zero-padded to width 8. -/
def fmtHex8 (n : Nat) : String :=
  let ds := (hexDigits n).map hexDigitChar
  String.mk (List.replicate (8 - ds.length) '0' ++ ds)

/-- `printf("%p")` of a heap pointer (glibc): `0x` followed by lowercase
hex digits, and `(nil)` for a null pointer.  The numeric address is the
run-time location of the pointed-to object; it is NOT a function of the
program input. -/
def fmtPtr (addr : Nat) : String :=
  if addr = 0 then "(nil)" else "0x" ++ String.mk ((hexDigits addr).map hexDigitChar)

/-! ## Exact rationals for `lua_Number` (C `double`) values

Core `Rat` arithmetic does not reduce in the kernel, so we use a bare
fraction representation.  A `Frac` with denominator `d ≠ 0` denotes the
rational `num / den`; every finite IEEE-754 double denotes such a value.
Arithmetic comparisons are by cross-multiplication, so no gcd is needed. -/

structure Frac where
  num : Int
  den : Nat
deriving DecidableEq, Repr

/-- Value equality of fractions (positive denominators assumed). -/
def Frac.veq (x y : Frac) : Bool := x.num * y.den == y.num * x.den

/-- Multiply a fraction by `10^k` (`k` may be negative). -/
def fracMulPow10 (x : Frac) (k : Int) : Frac :=
  if 0 ≤ k then ⟨x.num * 10 ^ k.toNat, x.den⟩ else ⟨x.num, x.den * 10 ^ (-k).toNat⟩

/-- Round `num / den` (with `den > 0`) to the nearest integer, ties to
even — the correct rounding performed by a conforming `printf`. -/
def rne (num : Int) (den : Nat) : Int :=
  let f := num.fdiv den
  let r2 := 2 * (num - f * den)
  if r2 < (den : Int) then f
  else if (den : Int) < r2 then f + 1
  else if f % 2 = 0 then f else f + 1

/-- Decimal exponent of a positive fraction `a`: the unique `e` with
`10^e ≤ a < 10^(e+1)`. -/
def decExp (a : Frac) : Int :=
  if a.den ≤ a.num.toNat then
    ((natDigits (a.num.toNat / a.den)).length : Int) - 1
  else
    let c := (a.den + a.num.toNat - 1) / a.num.toNat
    if c ≤ 1 then 0 else -((natDigits (c - 1)).length : Int)

/-- Strip trailing zero digits (the `%g` trailing-zero removal). -/
def stripTrailZeros (l : List Nat) : List Nat :=
  (l.reverse.dropWhile (fun d => d = 0)).reverse

/-- Exponent field of `%g`/`%e`: sign and at least two digits. -/
def expField (e : Int) : String :=
  let n := e.natAbs
  (if e < 0 then "-" else "+") ++ (if n < 10 then "0" ++ fmtNat n else fmtNat n)

/-- `printf("%.14g")` of a positive fraction: round to 14 significant
decimal digits, choose fixed or scientific style by the C rules, and
strip trailing fractional zeros. -/
def fmtG14core (a : Frac) : String :=
  let e0 := decExp a
  let scaled := fracMulPow10 a (13 - e0)
  let n0 := (rne scaled.num scaled.den).toNat
  let n := if n0 = 10 ^ 14 then 10 ^ 13 else n0
  let e := if n0 = 10 ^ 14 then e0 + 1 else e0
  let ds := natDigits n
  if e < -4 ∨ 14 ≤ e then
    let fp := stripTrailZeros (ds.drop 1)
    String.mk (digitChars (ds.take 1)) ++
      (if fp.isEmpty then "" else "." ++ String.mk (digitChars fp)) ++
      "e" ++ expField e
  else if 0 ≤ e then
    let ip := ds.take (e.toNat + 1)
    let fp := stripTrailZeros (ds.drop (e.toNat + 1))
    String.mk (digitChars ip) ++
      (if fp.isEmpty then "" else "." ++ String.mk (digitChars fp))
  else
    let fp := stripTrailZeros ds
    "0." ++ String.mk (List.replicate (-(e + 1)).toNat '0' ++ digitChars fp)

/-- `printf(LUA_NUMBER_FMT)` = `printf("%.14g")` on a finite double value. -/
def fmtG14 (x : Frac) : String :=
  if x.num = 0 then "0"
  else if x.num < 0 then "-" ++ fmtG14core ⟨-x.num, x.den⟩
  else fmtG14core x

/-- The `strspn(buff,"-0123456789")` test of `PrintConstant`: true iff
every character of the rendered number is a digit or `-`. -/
def allDigitsOrMinus (s : String) : Bool :=
  s.data.all (fun ch => ch.isDigit || ch == '-')

/-! ## Opcodes and instruction decoding

Modelled from the spec: the opcode enumeration and the instruction field
layout live in `lopcodes.h` / `lopnames.h`, which are part of this
repository but not under `src/`.  The enumeration below lists the opcodes
in exactly the order of the exhaustive `switch` of
`print_opcode_comment` in `src/luaot.c` (which mirrors the enum), and
the field layout is the documented Lua 5.4 instruction format:
7-bit opcode, `A` at bit 7 (8 bits), `k` at bit 15 (1 bit), `B` at
bit 16 (8 bits), `C` at bit 24 (8 bits), `Bx` = bits 15..31 (17 bits,
excess-65535 for `sBx`), `Ax`/`sJ` = bits 7..31 (25 bits, excess-16777215
for `sJ`), `sB`/`sC` excess-127. -/

inductive OpCode where
  | OP_MOVE | OP_LOADI | OP_LOADF | OP_LOADK | OP_LOADKX | OP_LOADBOOL
  | OP_LOADNIL | OP_GETUPVAL | OP_SETUPVAL | OP_GETTABUP | OP_GETTABLE
  | OP_GETI | OP_GETFIELD | OP_SETTABUP | OP_SETTABLE | OP_SETI
  | OP_SETFIELD | OP_NEWTABLE | OP_SELF | OP_ADDI | OP_ADDK | OP_SUBK
  | OP_MULK | OP_MODK | OP_POWK | OP_DIVK | OP_IDIVK | OP_BANDK
  | OP_BORK | OP_BXORK | OP_SHRI | OP_SHLI | OP_ADD | OP_SUB | OP_MUL
  | OP_MOD | OP_POW | OP_DIV | OP_IDIV | OP_BAND | OP_BOR | OP_BXOR
  | OP_SHL | OP_SHR | OP_MMBIN | OP_MMBINI | OP_MMBINK | OP_UNM
  | OP_BNOT | OP_NOT | OP_LEN | OP_CONCAT | OP_CLOSE | OP_TBC | OP_JMP
  | OP_EQ | OP_LT | OP_LE | OP_EQK | OP_EQI | OP_LTI | OP_LEI | OP_GTI
  | OP_GEI | OP_TEST | OP_TESTSET | OP_CALL | OP_TAILCALL | OP_RETURN
  | OP_RETURN0 | OP_RETURN1 | OP_FORLOOP | OP_FORPREP | OP_TFORPREP
  | OP_TFORCALL | OP_TFORLOOP | OP_SETLIST | OP_CLOSURE | OP_VARARG
  | OP_VARARGPREP | OP_EXTRAARG
deriving DecidableEq, Repr

open OpCode

/-- Numeric value of an opcode (its position in the enumeration). -/
def opNum (o : OpCode) : Nat :=
  match o with
  | OP_MOVE => 0 | OP_LOADI => 1 | OP_LOADF => 2 | OP_LOADK => 3
  | OP_LOADKX => 4 | OP_LOADBOOL => 5 | OP_LOADNIL => 6 | OP_GETUPVAL => 7
  | OP_SETUPVAL => 8 | OP_GETTABUP => 9 | OP_GETTABLE => 10 | OP_GETI => 11
  | OP_GETFIELD => 12 | OP_SETTABUP => 13 | OP_SETTABLE => 14 | OP_SETI => 15
  | OP_SETFIELD => 16 | OP_NEWTABLE => 17 | OP_SELF => 18 | OP_ADDI => 19
  | OP_ADDK => 20 | OP_SUBK => 21 | OP_MULK => 22 | OP_MODK => 23
  | OP_POWK => 24 | OP_DIVK => 25 | OP_IDIVK => 26 | OP_BANDK => 27
  | OP_BORK => 28 | OP_BXORK => 29 | OP_SHRI => 30 | OP_SHLI => 31
  | OP_ADD => 32 | OP_SUB => 33 | OP_MUL => 34 | OP_MOD => 35
  | OP_POW => 36 | OP_DIV => 37 | OP_IDIV => 38 | OP_BAND => 39
  | OP_BOR => 40 | OP_BXOR => 41 | OP_SHL => 42 | OP_SHR => 43
  | OP_MMBIN => 44 | OP_MMBINI => 45 | OP_MMBINK => 46 | OP_UNM => 47
  | OP_BNOT => 48 | OP_NOT => 49 | OP_LEN => 50 | OP_CONCAT => 51
  | OP_CLOSE => 52 | OP_TBC => 53 | OP_JMP => 54 | OP_EQ => 55
  | OP_LT => 56 | OP_LE => 57 | OP_EQK => 58 | OP_EQI => 59
  | OP_LTI => 60 | OP_LEI => 61 | OP_GTI => 62 | OP_GEI => 63
  | OP_TEST => 64 | OP_TESTSET => 65 | OP_CALL => 66 | OP_TAILCALL => 67
  | OP_RETURN => 68 | OP_RETURN0 => 69 | OP_RETURN1 => 70 | OP_FORLOOP => 71
  | OP_FORPREP => 72 | OP_TFORPREP => 73 | OP_TFORCALL => 74
  | OP_TFORLOOP => 75 | OP_SETLIST => 76 | OP_CLOSURE => 77
  | OP_VARARG => 78 | OP_VARARGPREP => 79 | OP_EXTRAARG => 80

/-- The opcode list in enumeration order. -/
def opcodeList : List OpCode :=
  [OP_MOVE, OP_LOADI, OP_LOADF, OP_LOADK, OP_LOADKX, OP_LOADBOOL,
   OP_LOADNIL, OP_GETUPVAL, OP_SETUPVAL, OP_GETTABUP, OP_GETTABLE,
   OP_GETI, OP_GETFIELD, OP_SETTABUP, OP_SETTABLE, OP_SETI,
   OP_SETFIELD, OP_NEWTABLE, OP_SELF, OP_ADDI, OP_ADDK, OP_SUBK,
   OP_MULK, OP_MODK, OP_POWK, OP_DIVK, OP_IDIVK, OP_BANDK,
   OP_BORK, OP_BXORK, OP_SHRI, OP_SHLI, OP_ADD, OP_SUB, OP_MUL,
   OP_MOD, OP_POW, OP_DIV, OP_IDIV, OP_BAND, OP_BOR, OP_BXOR,
   OP_SHL, OP_SHR, OP_MMBIN, OP_MMBINI, OP_MMBINK, OP_UNM,
   OP_BNOT, OP_NOT, OP_LEN, OP_CONCAT, OP_CLOSE, OP_TBC, OP_JMP,
   OP_EQ, OP_LT, OP_LE, OP_EQK, OP_EQI, OP_LTI, OP_LEI, OP_GTI,
   OP_GEI, OP_TEST, OP_TESTSET, OP_CALL, OP_TAILCALL, OP_RETURN,
   OP_RETURN0, OP_RETURN1, OP_FORLOOP, OP_FORPREP, OP_TFORPREP,
   OP_TFORCALL, OP_TFORLOOP, OP_SETLIST, OP_CLOSURE, OP_VARARG,
   OP_VARARGPREP, OP_EXTRAARG]

/-- Decode a 7-bit opcode field into an opcode; values `≥ 81` are not
opcodes of this Lua version (the C `switch` statements send them to
their `default` branch). -/
def opcodeOfNat (n : Nat) : Option OpCode := opcodeList.get? n

/-- `opnames[o]` from `lopnames.h`: the mnemonic is the enumerator name
without the `OP_` prefix.  For an out-of-range opcode value the C code
would index past the end of `opnames` (undefined behavior); that case
is modelled as `"?"` and is excluded by the trusted-loader invariant. -/
def opNameStr (o : Option OpCode) : String :=
  match o with
  | none => "?"
  | some x =>
    match x with
    | OP_MOVE => "MOVE" | OP_LOADI => "LOADI" | OP_LOADF => "LOADF"
    | OP_LOADK => "LOADK" | OP_LOADKX => "LOADKX" | OP_LOADBOOL => "LOADBOOL"
    | OP_LOADNIL => "LOADNIL" | OP_GETUPVAL => "GETUPVAL"
    | OP_SETUPVAL => "SETUPVAL" | OP_GETTABUP => "GETTABUP"
    | OP_GETTABLE => "GETTABLE" | OP_GETI => "GETI" | OP_GETFIELD => "GETFIELD"
    | OP_SETTABUP => "SETTABUP" | OP_SETTABLE => "SETTABLE" | OP_SETI => "SETI"
    | OP_SETFIELD => "SETFIELD" | OP_NEWTABLE => "NEWTABLE" | OP_SELF => "SELF"
    | OP_ADDI => "ADDI" | OP_ADDK => "ADDK" | OP_SUBK => "SUBK"
    | OP_MULK => "MULK" | OP_MODK => "MODK" | OP_POWK => "POWK"
    | OP_DIVK => "DIVK" | OP_IDIVK => "IDIVK" | OP_BANDK => "BANDK"
    | OP_BORK => "BORK" | OP_BXORK => "BXORK" | OP_SHRI => "SHRI"
    | OP_SHLI => "SHLI" | OP_ADD => "ADD" | OP_SUB => "SUB" | OP_MUL => "MUL"
    | OP_MOD => "MOD" | OP_POW => "POW" | OP_DIV => "DIV" | OP_IDIV => "IDIV"
    | OP_BAND => "BAND" | OP_BOR => "BOR" | OP_BXOR => "BXOR" | OP_SHL => "SHL"
    | OP_SHR => "SHR" | OP_MMBIN => "MMBIN" | OP_MMBINI => "MMBINI"
    | OP_MMBINK => "MMBINK" | OP_UNM => "UNM" | OP_BNOT => "BNOT"
    | OP_NOT => "NOT" | OP_LEN => "LEN" | OP_CONCAT => "CONCAT"
    | OP_CLOSE => "CLOSE" | OP_TBC => "TBC" | OP_JMP => "JMP" | OP_EQ => "EQ"
    | OP_LT => "LT" | OP_LE => "LE" | OP_EQK => "EQK" | OP_EQI => "EQI"
    | OP_LTI => "LTI" | OP_LEI => "LEI" | OP_GTI => "GTI" | OP_GEI => "GEI"
    | OP_TEST => "TEST" | OP_TESTSET => "TESTSET" | OP_CALL => "CALL"
    | OP_TAILCALL => "TAILCALL" | OP_RETURN => "RETURN"
    | OP_RETURN0 => "RETURN0" | OP_RETURN1 => "RETURN1"
    | OP_FORLOOP => "FORLOOP" | OP_FORPREP => "FORPREP"
    | OP_TFORPREP => "TFORPREP" | OP_TFORCALL => "TFORCALL"
    | OP_TFORLOOP => "TFORLOOP" | OP_SETLIST => "SETLIST"
    | OP_CLOSURE => "CLOSURE" | OP_VARARG => "VARARG"
    | OP_VARARGPREP => "VARARGPREP" | OP_EXTRAARG => "EXTRAARG"

/-! Instruction field accessors (`GETARG_*` of `lopcodes.h`). -/

def GET_OPCODE (w : Nat) : Nat := w % 2 ^ 7
def GETARG_A (w : Nat) : Nat := w / 2 ^ 7 % 2 ^ 8
def GETARG_k (w : Nat) : Nat := w / 2 ^ 15 % 2
def GETARG_B (w : Nat) : Nat := w / 2 ^ 16 % 2 ^ 8
def GETARG_C (w : Nat) : Nat := w / 2 ^ 24 % 2 ^ 8
def GETARG_Bx (w : Nat) : Nat := w / 2 ^ 15 % 2 ^ 17
def GETARG_Ax (w : Nat) : Nat := w / 2 ^ 7 % 2 ^ 25
def GETARG_sB (w : Nat) : Int := (GETARG_B w : Int) - 127
def GETARG_sC (w : Nat) : Int := (GETARG_C w : Int) - 127
def GETARG_sBx (w : Nat) : Int := (GETARG_Bx w : Int) - 65535
def GETARG_sJ (w : Nat) : Int := (GETARG_Ax w : Int) - 16777215

/-- Build an instruction word in the `iABCk` layout (test helper). -/
def mkABCk (o : OpCode) (a b c k : Nat) : Nat :=
  opNum o + a * 2 ^ 7 + k * 2 ^ 15 + b * 2 ^ 16 + c * 2 ^ 24

/-- Build an instruction word in the `iABx` layout (test helper). -/
def mkABx (o : OpCode) (a bx : Nat) : Nat :=
  opNum o + a * 2 ^ 7 + bx * 2 ^ 15

/-- Build an instruction word in the `isJ` layout (test helper). -/
def mksJ (o : OpCode) (sj : Int) : Nat :=
  opNum o + (sj + 16777215).toNat * 2 ^ 7

/-! ## The prototype data model (`Proto` of `lobject.h`, as used here)

The loader (`luaL_loadfile`, trusted, outside `src/`) produces a tree of
prototypes.  Only the fields read by `src/luaot.c` are modelled.  The
`addr` field models the heap address at which the loader materialised the
prototype object: `print_opcode_comment` prints it with `%p` for
`OP_CLOSURE` instructions.  It is an artifact of the run, not of the
input bytes. -/

/-- A constant-pool entry (`TValue` restricted to the tags handled by
`PrintConstant`): nil, boolean, 64-bit float, 64-bit integer, string.
Short and long strings render identically, so one constructor serves. -/
inductive KConst where
  | nil
  | boolean (b : Bool)
  | flt (x : Frac)
  | int (i : Int)
  | str (bytes : List Nat)
deriving DecidableEq, Repr

structure Proto where
  /-- Instruction words, in order (`code` / `sizecode`). -/
  code : List Nat
  /-- Constant pool (`k` / `sizek`). -/
  k : List KConst
  /-- Child prototypes (`p` / `sizep`). -/
  p : List Proto
  /-- Upvalue names (`upvalues[x].name`, absent modelled as `none`). -/
  upvalNames : List (Option String)
  /-- `source` (already stripped of its leading marker by `getstr`). -/
  source : String
  linedefined : Nat
  lastlinedefined : Nat
  /-- Per-instruction line numbers; `luaG_getfuncline` (from `ldebug.c`,
  not under `src/`) yields `-1` when absent, modelled by the default. -/
  lineinfo : List Int
  /-- Heap address of this `Proto` object in the run being modelled. -/
  addr : Nat
deriving Repr

instance : Inhabited Proto := ⟨⟨[], [], [], [], "", 0, 0, [], 0⟩⟩

/-- A prototype with all heap addresses erased: exactly the information
determined by the input file's bytes.  Two runs of the translator "on
byte-identical input" are two `Proto` trees with the same `stripAddr`
image. -/
structure StrippedProto where
  code : List Nat
  k : List KConst
  p : List StrippedProto
  upvalNames : List (Option String)
  source : String
  linedefined : Nat
  lastlinedefined : Nat
  lineinfo : List Int

mutual
def stripAddr : Proto → StrippedProto
  | ⟨code, k, p, up, src, ld, lld, li, _⟩ =>
    ⟨code, k, stripAddrList p, up, src, ld, lld, li⟩
def stripAddrList : List Proto → List StrippedProto
  | [] => []
  | q :: qs => stripAddr q :: stripAddrList qs
end

/-- The metamethod-event names (`tmname` of `ltm.c`, reachable through
`G(L)->tmname`; `ltm.c` is not under `src/`, the list is the fixed Lua 5.4
event-name table). -/
def tmNames : List String :=
  ["__index", "__newindex", "__gc", "__mode", "__len", "__eq",
   "__add", "__sub", "__mul", "__mod", "__pow", "__div",
   "__idiv", "__band", "__bor", "__bxor", "__shl", "__shr",
   "__unm", "__bnot", "__lt", "__le", "__concat", "__call", "__close"]

/-- `eventname(i)` = `getstr(tmname[i])`. -/
def eventname (i : Nat) : String := tmNames.getD i ""

/-- `UPVALNAME(x)`: the upvalue's name, or `-` when it has none. -/
def UPVALNAME (f : Proto) (x : Nat) : String :=
  match f.upvalNames.getD x none with
  | some s => s
  | none => "-"

/-! ## Output model and the constant renderer -/

/-- The output trace: one string per `print`/`println` call on
`output_file`, in order.  The generated file's bytes are the
concatenation. -/
abbrev Out := List String

/-- Chunks emitted by `PrintString(ts)` for one input byte
(the body of the `switch` in the escaping loop). -/
def escByteChunk (c : Nat) : String :=
  if c = 34 then "\\\""
  else if c = 92 then "\\\\"
  else if c = 7 then "\\a"
  else if c = 8 then "\\b"
  else if c = 12 then "\\f"
  else if c = 10 then "\\n"
  else if c = 13 then "\\r"
  else if c = 9 then "\\t"
  else if c = 11 then "\\v"
  else if 32 ≤ c ∧ c ≤ 126 then String.mk [Char.ofNat c]  -- isprint (C locale)
  else "\\" ++ fmt03 c

/-- `PrintString` of `src/luaot.c` (adapted from `luac.c`): quote, one
chunk per byte, quote. -/
def PrintString (bytes : List Nat) : Out :=
  ["\""] ++ bytes.map escByteChunk ++ ["\""]

/-- The `switch (ttypetag(o))` of `PrintConstant`, rendering one
constant-pool value. -/
def constantChunks : KConst → Out
  | KConst.nil => ["nil"]
  | KConst.boolean b => [if b then "true" else "false"]
  | KConst.flt x =>
    let buff := fmtG14 x
    [buff] ++ (if allDigitsOrMinus buff then [".0"] else [])
  | KConst.int i => [fmtInt i]
  | KConst.str s => PrintString s

/-- `PrintConstant` of `src/luaot.c`: render `f->k[i]`. -/
def PrintConstant (f : Proto) (i : Nat) : Out :=
  constantChunks (f.k.getD i KConst.nil)

/-- The rendered literal text of one constant (the bytes `PrintConstant`
writes, concatenated). -/
def renderConstant (k : KConst) : String := String.join (constantChunks k)

/-! ## `print_opcode_comment` (the per-instruction diagnostic comment) -/

/-- The `switch (o)` of `print_opcode_comment`, emitting the operand part
of the comment.  `w` is the instruction word, `o` its decoded opcode
(`none` falls to the C `default` branch). -/
def opcodeCommentBody (f : Proto) (pc : Nat) (w : Nat) (o : Option OpCode) : Out :=
  let a := GETARG_A w
  let b := GETARG_B w
  let c := GETARG_C w
  let ax := GETARG_Ax w
  let bx := GETARG_Bx w
  let sb := GETARG_sB w
  let sc := GETARG_sC w
  let sbx := GETARG_sBx w
  let isk := GETARG_k w
  match o with
  | some OP_MOVE => [fmtNat a ++ " " ++ fmtNat b]
  | some OP_LOADI => [fmtNat a ++ " " ++ fmtInt sbx]
  | some OP_LOADF => [fmtNat a ++ " " ++ fmtInt sbx]
  | some OP_LOADK =>
    [fmtNat a ++ " " ++ fmtNat bx] ++ ["\t; "] ++ PrintConstant f bx
  | some OP_LOADKX => [fmtNat a]
  | some OP_LOADBOOL =>
    [fmtNat a ++ " " ++ fmtNat b ++ " " ++ fmtNat c] ++
      (if c ≠ 0 then ["\t; to " ++ fmtNat (pc + 2)] else [])
  | some OP_LOADNIL =>
    [fmtNat a ++ " " ++ fmtNat b] ++ ["\t; " ++ fmtNat (b + 1) ++ " out"]
  | some OP_GETUPVAL =>
    [fmtNat a ++ " " ++ fmtNat b] ++ ["\t; " ++ UPVALNAME f b]
  | some OP_SETUPVAL =>
    [fmtNat a ++ " " ++ fmtNat b] ++ ["\t; " ++ UPVALNAME f b]
  | some OP_GETTABUP =>
    [fmtNat a ++ " " ++ fmtNat b ++ " " ++ fmtNat c] ++
      ["\t; " ++ UPVALNAME f b] ++ [" "] ++ PrintConstant f c
  | some OP_GETTABLE => [fmtNat a ++ " " ++ fmtNat b ++ " " ++ fmtNat c]
  | some OP_GETI => [fmtNat a ++ " " ++ fmtNat b ++ " " ++ fmtNat c]
  | some OP_GETFIELD =>
    [fmtNat a ++ " " ++ fmtNat b ++ " " ++ fmtNat c] ++ ["\t; "] ++
      PrintConstant f c
  | some OP_SETTABUP =>
    [fmtNat a ++ " " ++ fmtNat b ++ " " ++ fmtNat c ++
       (if isk ≠ 0 then "k" else "")] ++
      ["\t; " ++ UPVALNAME f a] ++ [" "] ++ PrintConstant f b ++
      (if isk ≠ 0 then [" "] ++ PrintConstant f c else [])
  | some OP_SETTABLE =>
    [fmtNat a ++ " " ++ fmtNat b ++ " " ++ fmtNat c ++
       (if isk ≠ 0 then "k" else "")] ++
      (if isk ≠ 0 then ["\t; "] ++ PrintConstant f c else [])
  | some OP_SETI =>
    [fmtNat a ++ " " ++ fmtNat b ++ " " ++ fmtNat c ++
       (if isk ≠ 0 then "k" else "")] ++
      (if isk ≠ 0 then ["\t; "] ++ PrintConstant f c else [])
  | some OP_SETFIELD =>
    [fmtNat a ++ " " ++ fmtNat b ++ " " ++ fmtNat c ++
       (if isk ≠ 0 then "k" else "")] ++
      ["\t; "] ++ PrintConstant f b ++
      (if isk ≠ 0 then [" "] ++ PrintConstant f c else [])
  | some OP_NEWTABLE => [fmtNat a ++ " " ++ fmtNat b ++ " " ++ fmtNat c]
  | some OP_SELF =>
    [fmtNat a ++ " " ++ fmtNat b ++ " " ++ fmtNat c ++
       (if isk ≠ 0 then "k" else "")] ++
      (if isk ≠ 0 then ["\t; "] ++ PrintConstant f c else [])
  | some OP_ADDI =>
    [fmtNat a ++ " " ++ fmtNat b ++ " " ++ fmtInt sc ++ " " ++
       (if isk ≠ 0 then "F" else "")]
  | some OP_ADDK =>
    [fmtNat a ++ " " ++ fmtNat b ++ " " ++ fmtNat c ++ " " ++
       (if isk ≠ 0 then "F" else "")] ++ ["\t; "] ++ PrintConstant f c
  | some OP_SUBK =>
    [fmtNat a ++ " " ++ fmtNat b ++ " " ++ fmtNat c] ++ ["\t; "] ++
      PrintConstant f c
  | some OP_MULK =>
    [fmtNat a ++ " " ++ fmtNat b ++ " " ++ fmtNat c ++ " " ++
       (if isk ≠ 0 then "F" else "")] ++ ["\t; "] ++ PrintConstant f c
  | some OP_MODK =>
    [fmtNat a ++ " " ++ fmtNat b ++ " " ++ fmtNat c] ++ ["\t; "] ++
      PrintConstant f c
  | some OP_POWK =>
    [fmtNat a ++ " " ++ fmtNat b ++ " " ++ fmtNat c] ++ ["\t; "] ++
      PrintConstant f c
  | some OP_DIVK =>
    [fmtNat a ++ " " ++ fmtNat b ++ " " ++ fmtNat c] ++ ["\t; "] ++
      PrintConstant f c
  | some OP_IDIVK =>
    [fmtNat a ++ " " ++ fmtNat b ++ " " ++ fmtNat c] ++ ["\t; "] ++
      PrintConstant f c
  | some OP_BANDK =>
    [fmtNat a ++ " " ++ fmtNat b ++ " " ++ fmtNat c] ++ ["\t; "] ++
      PrintConstant f c
  | some OP_BORK =>
    [fmtNat a ++ " " ++ fmtNat b ++ " " ++ fmtNat c] ++ ["\t; "] ++
      PrintConstant f c
  | some OP_BXORK =>
    [fmtNat a ++ " " ++ fmtNat b ++ " " ++ fmtNat c] ++ ["\t; "] ++
      PrintConstant f c
  | some OP_SHRI => [fmtNat a ++ " " ++ fmtNat b ++ " " ++ fmtInt sc]
  | some OP_SHLI => [fmtNat a ++ " " ++ fmtNat b ++ " " ++ fmtInt sc]
  | some OP_ADD => [fmtNat a ++ " " ++ fmtNat b ++ " " ++ fmtNat c]
  | some OP_SUB => [fmtNat a ++ " " ++ fmtNat b ++ " " ++ fmtNat c]
  | some OP_MUL => [fmtNat a ++ " " ++ fmtNat b ++ " " ++ fmtNat c]
  | some OP_MOD => [fmtNat a ++ " " ++ fmtNat b ++ " " ++ fmtNat c]
  | some OP_POW => [fmtNat a ++ " " ++ fmtNat b ++ " " ++ fmtNat c]
  | some OP_DIV => [fmtNat a ++ " " ++ fmtNat b ++ " " ++ fmtNat c]
  | some OP_IDIV => [fmtNat a ++ " " ++ fmtNat b ++ " " ++ fmtNat c]
  | some OP_BAND => [fmtNat a ++ " " ++ fmtNat b ++ " " ++ fmtNat c]
  | some OP_BOR => [fmtNat a ++ " " ++ fmtNat b ++ " " ++ fmtNat c]
  | some OP_BXOR => [fmtNat a ++ " " ++ fmtNat b ++ " " ++ fmtNat c]
  | some OP_SHL => [fmtNat a ++ " " ++ fmtNat b ++ " " ++ fmtNat c]
  | some OP_SHR => [fmtNat a ++ " " ++ fmtNat b ++ " " ++ fmtNat c]
  | some OP_MMBIN =>
    [fmtNat a ++ " " ++ fmtNat b ++ " " ++ fmtNat c] ++
      ["\t; " ++ eventname c]
  | some OP_MMBINI =>
    [fmtNat a ++ " " ++ fmtInt sb ++ " " ++ fmtNat c] ++
      ["\t; " ++ eventname c]
  | some OP_MMBINK =>
    [fmtNat a ++ " " ++ fmtNat b ++ " " ++ fmtNat c] ++
      ["\t; " ++ eventname c ++ " "] ++ PrintConstant f b
  | some OP_UNM => [fmtNat a ++ " " ++ fmtNat b]
  | some OP_BNOT => [fmtNat a ++ " " ++ fmtNat b]
  | some OP_NOT => [fmtNat a ++ " " ++ fmtNat b]
  | some OP_LEN => [fmtNat a ++ " " ++ fmtNat b]
  | some OP_CONCAT => [fmtNat a ++ " " ++ fmtNat b]
  | some OP_CLOSE => [fmtNat a]
  | some OP_TBC => [fmtNat a]
  | some OP_JMP =>
    [fmtInt (GETARG_sJ w)] ++
      ["\t; to " ++ fmtInt (GETARG_sJ w + pc + 2)]
  | some OP_EQ => [fmtNat a ++ " " ++ fmtNat b ++ " " ++ fmtNat isk]
  | some OP_LT => [fmtNat a ++ " " ++ fmtNat b ++ " " ++ fmtNat isk]
  | some OP_LE => [fmtNat a ++ " " ++ fmtNat b ++ " " ++ fmtNat isk]
  | some OP_EQK =>
    [fmtNat a ++ " " ++ fmtNat b ++ " " ++ fmtNat isk] ++ ["\t; "] ++
      PrintConstant f b
  | some OP_EQI => [fmtNat a ++ " " ++ fmtInt sb ++ " " ++ fmtNat isk]
  | some OP_LTI => [fmtNat a ++ " " ++ fmtInt sb ++ " " ++ fmtNat isk]
  | some OP_LEI => [fmtNat a ++ " " ++ fmtInt sb ++ " " ++ fmtNat isk]
  | some OP_GTI => [fmtNat a ++ " " ++ fmtInt sb ++ " " ++ fmtNat isk]
  | some OP_GEI => [fmtNat a ++ " " ++ fmtInt sb ++ " " ++ fmtNat isk]
  | some OP_TEST => [fmtNat a ++ " " ++ fmtNat isk]
  | some OP_TESTSET => [fmtNat a ++ " " ++ fmtNat b ++ " " ++ fmtNat isk]
  | some OP_CALL =>
    [fmtNat a ++ " " ++ fmtNat b ++ " " ++ fmtNat c] ++ ["\t; "] ++
      [if b = 0 then "all in " else fmtNat (b - 1) ++ " in "] ++
      [if c = 0 then "all out" else fmtNat (c - 1) ++ " out"]
  | some OP_TAILCALL =>
    [fmtNat a ++ " " ++ fmtNat b ++ " " ++ fmtNat c] ++
      ["\t; " ++ fmtInt ((b : Int) - 1) ++ " in"]
  | some OP_RETURN =>
    [fmtNat a ++ " " ++ fmtNat b ++ " " ++ fmtNat c] ++ ["\t; "] ++
      [if b = 0 then "all out" else fmtNat (b - 1) ++ " out"]
  | some OP_RETURN0 => []
  | some OP_RETURN1 => [fmtNat a]
  | some OP_FORLOOP =>
    [fmtNat a ++ " " ++ fmtNat bx] ++
      ["\t; to " ++ fmtInt ((pc : Int) - bx + 2)]
  | some OP_FORPREP =>
    [fmtNat a ++ " " ++ fmtNat bx] ++
      ["\t; to " ++ fmtInt ((pc : Int) + bx + 2)]
  | some OP_TFORPREP =>
    [fmtNat a ++ " " ++ fmtNat bx] ++
      ["\t; to " ++ fmtInt ((pc : Int) + bx + 2)]
  | some OP_TFORCALL => [fmtNat a ++ " " ++ fmtNat c]
  | some OP_TFORLOOP =>
    [fmtNat a ++ " " ++ fmtNat bx] ++
      ["\t; to " ++ fmtInt ((pc : Int) - bx + 2)]
  | some OP_SETLIST => [fmtNat a ++ " " ++ fmtNat b ++ " " ++ fmtNat c]
  | some OP_CLOSURE =>
    [fmtNat a ++ " " ++ fmtNat bx] ++
      ["\t; " ++ fmtPtr (f.p.getD bx default).addr]
  | some OP_VARARG =>
    [fmtNat a ++ " " ++ fmtNat c] ++ ["\t; "] ++
      [if c = 0 then "all out" else fmtNat (c - 1) ++ " out"]
  | some OP_VARARGPREP => [fmtNat a]
  | some OP_EXTRAARG => [fmtNat ax] ++ ["\t; "] ++ PrintConstant f ax
  | none =>
    [fmtNat a ++ " " ++ fmtNat b ++ " " ++ fmtNat c] ++ ["\t; not handled"]

/-- `print_opcode_comment` of `src/luaot.c`: the `//`-comment emitted
before each instruction's block. -/
def print_opcode_comment (f : Proto) (pc : Nat) : Out :=
  let w := f.code.getD pc 0
  let line := f.lineinfo.getD pc (-1)
  ["  //"] ++ [" " ++ fmtNat (pc + 1) ++ "\t"] ++
    [if 0 < line then "[" ++ fmtInt line ++ "]\t" else "[-]\t"] ++
    [fmtL9 (opNameStr (opcodeOfNat (GET_OPCODE w))) ++ "\t"] ++
    opcodeCommentBody f pc w (opcodeOfNat (GET_OPCODE w)) ++
    ["\n"]

/-! ## `create_function`: the per-opcode emitter and function assembler -/

/-- The `switch (op)` of `create_function`: the native-code block body
emitted for one instruction.  `pc` is the instruction position, `w` the
instruction word, `o` its decoded opcode (`none` falls to the C
`default` branch, as do all opcodes without a `case` label). -/
def instrBodyCases (pc : Nat) (w : Nat) (o : Option OpCode) : Out :=
  match o with
  | some OP_MOVE => ["    setobjs2s(L, ra, RB(i));\n"]
  | some OP_LOADI =>
    ["    lua_Integer b = GETARG_sBx(i);\n",
     "    setivalue(s2v(ra), b);\n"]
  | some OP_RETURN =>
    ["    int n = GETARG_B(i) - 1;  /* number of results */\n",
     "    int nparams1 = GETARG_C(i);\n",
     "    if (n < 0)  /* not fixed? */\n",
     "      n = cast_int(L->top - ra);  /* get what is available */\n",
     "    savepc(ci);\n",
     "    if (TESTARG_k(i)) \x7b  /* may there be open upvalues? */\n",
     "      if (L->top < ci->top)\n",
     "        L->top = ci->top;\n",
     "      luaF_close(L, base, LUA_OK);\n",
     "      updatetrap(ci);\n",
     "      updatestack(ci);\n",
     "    \x7d\n",
     "    if (nparams1)  /* vararg function? */\n",
     "      ci->func -= ci->u.l.nextraargs + nparams1;\n",
     "    L->top = ra + n;  /* set call for \x27luaD_poscall\x27 */\n",
     "    luaD_poscall(L, ci, n);\n",
     "    return;\n"]
  | some OP_RETURN0 =>
    ["    if (L->hookmask) \x7b\n",
     "      L->top = ra;\n",
     "      halfProtectNT(luaD_poscall(L, ci, 0));  /* no hurry... */\n",
     "    \x7d\n",
     "    else \x7b  /* do the \x27poscall\x27 here */\n",
     "      int nres = ci->nresults;\n",
     "      L->ci = ci->previous;  /* back to caller */\n",
     "      L->top = base - 1;\n",
     "      while (nres-- > 0)\n",
     "        setnilvalue(s2v(L->top++));  /* all results are nil */\n",
     "    \x7d\n",
     "    return;\n"]
  | some OP_RETURN1 =>
    ["    if (L->hookmask) \x7b\n",
     "      L->top = ra + 1;\n",
     "      halfProtectNT(luaD_poscall(L, ci, 1));  /* no hurry... */\n",
     "    \x7d\n",
     "    else \x7b  /* do the \x27poscall\x27 here */\n",
     "      int nres = ci->nresults;\n",
     "      L->ci = ci->previous;  /* back to caller */\n",
     "      if (nres == 0)\n",
     "        L->top = base - 1;  /* asked for no results */\n",
     "      else \x7b\n",
     "        setobjs2s(L, base - 1, ra);  /* at least this result */\n",
     "        L->top = base;\n",
     "        while (--nres > 0)  /* complete missing results */\n",
     "          setnilvalue(s2v(L->top++));\n",
     "      \x7d\n",
     "    \x7d\n",
     "    return;\n"]
  | some OP_FORLOOP =>
    ["    if (ttisinteger(s2v(ra + 2))) \x7b  /* integer loop? */\n",
     "      lua_Unsigned count = l_castS2U(ivalue(s2v(ra + 1)));\n",
     "      if (count > 0) \x7b  /* still more iterations? */\n",
     "        lua_Integer step = ivalue(s2v(ra + 2));\n",
     "        lua_Integer idx = ivalue(s2v(ra));  /* internal index */\n",
     "        chgivalue(s2v(ra + 1), count - 1);  /* update counter */\n",
     "        idx = intop(+, idx, step);  /* add step to index */\n",
     "        chgivalue(s2v(ra), idx);  /* update internal index */\n",
     "        setivalue(s2v(ra + 3), idx);  /* and control variable */\n",
     "        goto label_" ++ fmt02 ((pc : Int) + 1 - GETARG_Bx w) ++
       "; /* jump back */\n",
     "      \x7d\n",
     "    \x7d\n",
     "    else \x7b  /* floating loop */\n",
     "      lua_Number step = fltvalue(s2v(ra + 2));\n",
     "      lua_Number limit = fltvalue(s2v(ra + 1));\n",
     "      lua_Number idx = fltvalue(s2v(ra));\n",
     "      idx = luai_numadd(L, idx, step);  /* increment index */\n",
     "      if (luai_numlt(0, step) ? luai_numle(idx, limit)\n",
     "                              : luai_numle(limit, idx)) \x7b\n",
     "        chgfltvalue(s2v(ra), idx);  /* update internal index */\n",
     "        setfltvalue(s2v(ra + 3), idx);  /* and control variable */\n",
     "        goto label_" ++ fmt02 ((pc : Int) + 1 - GETARG_Bx w) ++
       "; /* jump back */\n",
     "      \x7d\n",
     "    \x7d\n",
     "    updatetrap(ci);  /* allows a signal to break the loop */\n"]
  | some OP_FORPREP =>
    ["    TValue *pinit = s2v(ra);\n",
     "    TValue *plimit = s2v(ra + 1);\n",
     "    TValue *pstep = s2v(ra + 2);\n",
     "    savestate(L, ci);  /* in case of errors */\n",
     "    if (ttisinteger(pinit) && ttisinteger(pstep)) \x7b /* integer loop? */\n",
     "      lua_Integer init = ivalue(pinit);\n",
     "      lua_Integer step = ivalue(pstep);\n",
     "      lua_Integer limit;\n",
     "      if (step == 0)\n",
     "        luaG_runerror(L, \"\x27for\x27 step is zero\");\n",
     "      setivalue(s2v(ra + 3), init);  /* control variable */\n",
     "      if (forlimit(L, init, plimit, &limit, step))\n",
     "        goto label_" ++ fmt02 ((pc : Int) + 1 + GETARG_Bx w + 1) ++
       "; /* skip the loop */\n",
     "      else \x7b  /* prepare loop counter */\n",
     "        lua_Unsigned count;\n",
     "        if (step > 0) \x7b  /* ascending loop? */\n",
     "          count = l_castS2U(limit) - l_castS2U(init);\n",
     "          if (step != 1)  /* avoid division in the too common case */\n",
     "            count /= l_castS2U(step);\n",
     "        \x7d\n",
     "        else \x7b  /* step < 0; descending loop */\n",
     "          count = l_castS2U(init) - l_castS2U(limit);\n",
     "          /* \x27step+1\x27 avoids negating \x27mininteger\x27 */\n",
     "          count /= l_castS2U(-(step + 1)) + 1u;\n",
     "        \x7d\n",
     "        /* store the counter in place of the limit (which won\x27t be\n",
     "           needed anymore */\n",
     "        setivalue(plimit, l_castU2S(count));\n",
     "      \x7d\n",
     "    \x7d\n",
     "    else \x7b  /* try making all values floats */\n",
     "      lua_Number init; lua_Number limit; lua_Number step;\n",
     "      if (unlikely(!tonumber(plimit, &limit)))\n",
     "        luaG_forerror(L, plimit, \"limit\");\n",
     "      if (unlikely(!tonumber(pstep, &step)))\n",
     "        luaG_forerror(L, pstep, \"step\");\n",
     "      if (unlikely(!tonumber(pinit, &init)))\n",
     "        luaG_forerror(L, pinit, \"initial value\");\n",
     "      if (step == 0)\n",
     "        luaG_runerror(L, \"\x27for\x27 step is zero\");\n",
     "      if (luai_numlt(0, step) ? luai_numlt(limit, init)\n",
     "                               : luai_numlt(init, limit))\n",
     "        goto label_" ++ fmt02 ((pc : Int) + 1 + GETARG_Bx w + 1) ++
       "; /* skip the loop */\n",
     "      else \x7b\n",
     "        /* make sure internal values are all float */\n",
     "        setfltvalue(plimit, limit);\n",
     "        setfltvalue(pstep, step);\n",
     "        setfltvalue(s2v(ra), init);  /* internal index */\n",
     "        setfltvalue(s2v(ra + 3), init);  /* control variable */\n",
     "      \x7d\n",
     "    \x7d\n"]
  | some OP_CLOSURE =>
    ["    Proto *p = cl->p->p[GETARG_Bx(i)];\n",
     "    halfProtect(pushclosure(L, p, cl->upvals, base, ra));\n",
     "    checkGC(L, ra + 1);\n"]
  | some OP_VARARG =>
    ["    int n = GETARG_C(i) - 1;  /* required results */\n",
     "    Protect(luaT_getvarargs(L, ci, ra, n));\n"]
  | some OP_VARARGPREP =>
    ["    luaT_adjustvarargs(L, GETARG_A(i), ci, cl->p);\n",
     "    updatetrap(ci);\n",
     "    if (trap) \x7b\n",
     "      luaD_hookcall(L, ci);\n",
     "      L->oldpc = LUA_AOT_PC + 1;  /* next opcode will be seen as a \"new\" line */\n",
     "    \x7d\n"]
  | some OP_EXTRAARG => ["    lua_assert(0);\n"]
  | _ => ["    assert(0); /* TODO */\n"]

/-- The `LUA_AOT_NEXT_JUMP` macro maintenance emitted before the block of
position `pc`: the macro is first undefined, and re-defined exactly when
the instruction at position `pc + 1` exists and is an `OP_JMP` — but what
it is bound to is the placeholder label `label_todo`. -/
def nextJumpChunks (f : Proto) (pc : Nat) : Out :=
  ["  #undef  LUA_AOT_NEXT_JUMP\n"] ++
    (if pc + 1 < f.code.length ∧
        GET_OPCODE (f.code.getD (pc + 1) 0) = opNum OP_JMP then
      ["  #define LUA_AOT_NEXT_JUMP label_todo\n"]
    else [])

/-- The `LUA_AOT_SKIP1` macro maintenance emitted before the block of
position `pc`. -/
def skip1Chunks (f : Proto) (pc : Nat) : Out :=
  ["  #undef  LUA_AOT_SKIP1\n"] ++
    (if pc + 2 < f.code.length then
      ["  #define LUA_AOT_SKIP1 label_" ++ fmt02 ((pc : Int) + 2) ++ "\n"]
    else [])

/-- Everything `create_function` emits for instruction position `pc`:
comment, instruction-pointer macro, next-jump and skip-one macros, the
label, the block prologue, the opcode body, and the block close. -/
def pcEmission (f : Proto) (pc : Nat) : Out :=
  let w := f.code.getD pc 0
  print_opcode_comment f pc ++
    ["  #undef  LUA_AOT_PC\n",
     "  #define LUA_AOT_PC (function_code + " ++ fmtNat (pc + 1) ++ ")\n"] ++
    nextJumpChunks f pc ++
    skip1Chunks f pc ++
    ["  label_" ++ fmt02 (pc : Int) ++ " : \x7b\n",
     "    Instruction i = 0x" ++ fmtHex8 w ++ ";\n",
     "    StkId ra = RA(i);\n",
     "    (void) ra;\n"] ++
    instrBodyCases pc w (opcodeOfNat (GET_OPCODE w)) ++
    ["  \x7d\n",
     "  \n"]

/-- `create_function` of `src/luaot.c`: one native function for one
prototype.  `func_id` is the value the global counter `nfunctions` had
when the function was entered. -/
def create_function (f : Proto) (func_id : Nat) : Out :=
  ["// source = " ++ f.source ++ "\n"] ++
    (if f.linedefined = 0 then
      ["// main function\n"]
    else
      ["// lines: " ++ fmtNat f.linedefined ++ " - " ++
         fmtNat f.lastlinedefined ++ "\n"]) ++
    ["static\n",
     "void magic_implementation_" ++ fmt02 (func_id : Int) ++
       "(lua_State *L, CallInfo *ci)\n",
     "\x7b\n",
     "  LClosure *cl;\n",
     "  TValue *k;\n",
     "  StkId base;\n",
     "  const Instruction *saved_pc;\n",
     "  int trap;\n",
     "  \n",
     " tailcall:\n",
     "  trap = L->hookmask;\n",
     "  cl = clLvalue(s2v(ci->func));\n",
     "  k = cl->p->k;\n",
     "  saved_pc = ci->u.l.savedpc;  /*no explicit program counter*/ \n",
     "  if (trap) \x7b\n",
     "    if (cl->p->is_vararg)\n",
     "      trap = 0;  /* hooks will start after VARARGPREP instruction */\n",
     "    else if (saved_pc == cl->p->code) /*first instruction (not resuming)?*/\n",
     "      luaD_hookcall(L, ci);\n",
     "    ci->u.l.trap = 1;  /* there may be other hooks */\n",
     "  \x7d\n",
     "  base = ci->func + 1;\n",
     "  /* main loop of interpreter */\n",
     "  Instruction *function_code = cl->p->code;\n",
     " \n"] ++
    (List.range f.code.length).flatMap (fun pc => pcEmission f pc) ++
    ["\x7d\n",
     " \n"]

/-! ## `create_functions` / `print_functions`: the module assembler -/

mutual
/-- `create_functions` of `src/luaot.c`: pre-order emission (a prototype
before its children, children in index order).  The second component
threads the global `nfunctions` counter: the pair is (emitted output,
counter after emission). -/
def create_functions : Proto → Nat → Out × Nat
  | f@⟨_, _, children, _, _, _, _, _, _⟩, n =>
    let o := create_function f n
    let r := create_functions_list children (n + 1)
    (o ++ r.1, r.2)
/-- The `for (i = 0; i < p->sizep; i++) create_functions(p->p[i])` loop. -/
def create_functions_list : List Proto → Nat → Out × Nat
  | [], n => ([], n)
  | q :: qs, n =>
    let r1 := create_functions q n
    let r2 := create_functions_list qs r1.2
    (r1.1 ++ r2.1, r2.2)
end

mutual
/-- The prototypes of a tree in pre-order (a node before its children,
children in index order). -/
def preorder : Proto → List Proto
  | f@⟨_, _, children, _, _, _, _, _, _⟩ => f :: preorderList children
def preorderList : List Proto → List Proto
  | [] => []
  | q :: qs => preorder q ++ preorderList qs
end

mutual
/-- No instruction anywhere in the tree decodes to `OP_CLOSURE`. -/
def noClosureTree : Proto → Bool
  | ⟨code, _, children, _, _, _, _, _, _⟩ =>
    code.all (fun w => GET_OPCODE w != opNum OP_CLOSURE) &&
      noClosureList children
def noClosureList : List Proto → Bool
  | [] => true
  | q :: qs => noClosureTree q && noClosureList qs
end

/-- `print_functions` of `src/luaot.c`: all native functions in pre-order
followed by the function-pointer table (one entry per emitted function,
then the `NULL` sentinel). -/
def print_functions (f : Proto) : Out :=
  let r := create_functions f 0
  r.1 ++
    ["static AotCompiledFunction LUA_AOT_FUNCTIONS[] = \x7b\n"] ++
    (List.range r.2).map
      (fun i => "  magic_implementation_" ++ fmt02 (i : Int) ++ ",\n") ++
    ["  NULL\n",
     "\x7d;\n"]

/-! ## `print_source_code`: the embedded copy of the input file -/

/-- The `do { ... } while (c != EOF)` loop of `print_source_code`:
`bs` are the bytes `fgetc` will still deliver, `col` is the current
column counter.  At end of file the code prints a final `0` entry with
no comma and closes the line. -/
def psc_loop : List Nat → Nat → Out
  | [], col =>
    (if col = 0 then ["  "] else []) ++ [fmt3 0] ++ ["\n"]
  | c :: rest, col =>
    (if col = 0 then ["  "] else []) ++ [fmt3 c, ", "] ++
      (if col + 1 = 16 then ["\n"] ++ psc_loop rest 0
       else psc_loop rest (col + 1))

/-- `print_source_code` of `src/luaot.c`, after the second `fopen` of the
input file succeeded and delivered `bytes`. -/
def print_source_code (bytes : List Nat) : Out :=
  ["static const char LUA_AOT_MODULE_SOURCE_CODE[] = \x7b\n"] ++
    psc_loop bytes 0 ++
    ["\x7d;\n"]

/-! ## `get_module_name` and `main` -/

/-- Characters of the final path component: the C code scans the name
and restarts `start` after every `/`. -/
def afterLastSlash (cs : List Char) : List Char :=
  cs.foldl (fun acc ch => if ch = '/' then [] else acc ++ [ch]) []

/-- The first `.`-split of the final component: the C code scans from
`start` and stops at the first `.`, leaving `sep` at that dot (`none`
when there is no dot at all, i.e. `sep` stays `NULL`). -/
def splitFirstDot : List Char → Option (List Char × List Char)
  | [] => none
  | c :: rest =>
    if c = '.' then some ([], rest)
    else
      match splitFirstDot rest with
      | none => none
      | some (pre, post) => some (c :: pre, post)

/-- Result of `get_module_name`.  When the final component has no dot,
`sep` is `NULL` and the C code evaluates `strcmp(sep+1, "c")`, i.e. it
reads memory at address 1: undefined behavior (in practice a crash), not
a `fatal_error`. -/
inductive ModNameResult where
  | ok (name : String)
  | fatal (msg : String)
  | undefinedBehavior
deriving DecidableEq, Repr

/-- `get_module_name` of `src/luaot.c`. -/
def get_module_name (filename : String) : ModNameResult :=
  let start := afterLastSlash filename.data
  match splitFirstDot start with
  | none => ModNameResult.undefinedBehavior
  | some (name, ext) =>
    if ext ≠ ['c'] then
      ModNameResult.fatal ("output file is not of a \"c\" file")
    else ModNameResult.ok (String.mk name)

/-- Outcome of one run of the translator process. -/
inductive RunResult where
  /-- `usage_error()`: usage message to stderr, `exit(1)`. -/
  | usage
  /-- `fatal_error(msg)`: message to stderr, `exit(1)`; `written` is the
  output-file content produced before the failure (flushed by `exit`). -/
  | fatal (msg : String) (written : Out)
  /-- The `strcmp(NULL + 1, "c")` path: undefined behavior. -/
  | undefinedBehavior
  /-- Normal completion: `written` is the whole output file. -/
  | done (written : Out)
deriving DecidableEq, Repr

/-- Exit status of the process (`none` when behavior is undefined). -/
def exitCode : RunResult → Option Nat
  | RunResult.usage => some 1
  | RunResult.fatal _ _ => some 1
  | RunResult.undefinedBehavior => none
  | RunResult.done _ => some 0

/-- The `#define LUA_AOT_LUAOPEN_NAME luaopen_%s` line. -/
def luaopenChunk (m : String) : String :=
  "#define LUA_AOT_LUAOPEN_NAME luaopen_" ++ m ++ "\n"

/-- `main` of `src/luaot.c`.  Environment interactions appear as
parameters: `argv` (including `argv[0]`), the result of
`luaL_loadfile` (the trusted loader, `error` carries `lua_tostring` of
the load error), whether `fopen(output_filename, "w")` succeeded,
`strerror(errno)` for that failure, and the bytes delivered by the
second `fopen` of the input inside `print_source_code` (`none` when that
open fails). -/
def main_run (argv : List String) (load : Except String Proto)
    (outOpenOk : Bool) (oserr : String) (second : Option (List Nat)) :
    RunResult :=
  if argv.length ≠ 3 then RunResult.usage
  else
    match get_module_name (argv.getD 2 "") with
    | ModNameResult.undefinedBehavior => RunResult.undefinedBehavior
    | ModNameResult.fatal msg => RunResult.fatal msg []
    | ModNameResult.ok m =>
      match load with
      | Except.error e => RunResult.fatal e []
      | Except.ok proto =>
        if !outOpenOk then RunResult.fatal oserr []
        else
          let pre := ["#include \"luaot_header.c\"\n", " \n"] ++
            print_functions proto ++ [" \n"]
          match second with
          | none =>
            RunResult.fatal ("could not open input file a second time") pre
          | some bytes =>
            RunResult.done (pre ++ print_source_code bytes ++
              [" \n", luaopenChunk m, " \n",
               "#include \"luaot_footer.c\"\n"])

/-! ## The target-language (C) literal grammar

The spec's round-trip guarantee is about "the rendered literal, when
parsed by the target language's literal grammar".  The parsers below
implement the relevant fragment of the C literal grammar: keyword-like
tokens, decimal integer literals, decimal floating literals with
optional exponent, and string literals with the named escapes and the
octal escape `\\ooo` (one to three octal digits, maximal munch) — the
escapes that matter for what `PrintString` can emit. -/

def isOctDigit (c : Char) : Bool := '0' ≤ c && c ≤ '7'

def octVal (c : Char) : Nat := c.toNat - 48

def digitVal (c : Char) : Nat := c.toNat - 48

/-- Parse one escape sequence (after the backslash): the bytes it
denotes and the remaining characters.  The named escapes, `\"`, `\\`,
and the octal escape of one to three octal digits (maximal munch). -/
def parseEsc : List Char → Option (Nat × List Char)
  | [] => none
  | c :: r =>
    if c = 'a' then some (7, r)
    else if c = 'b' then some (8, r)
    else if c = 'f' then some (12, r)
    else if c = 'n' then some (10, r)
    else if c = 'r' then some (13, r)
    else if c = 't' then some (9, r)
    else if c = 'v' then some (11, r)
    else if c = '"' then some (34, r)
    else if c = '\\' then some (92, r)
    else if isOctDigit c then
      match r with
      | [] => some (octVal c, [])
      | d2 :: r2 =>
        if isOctDigit d2 then
          match r2 with
          | [] => some (octVal c * 8 + octVal d2, [])
          | d3 :: r3 =>
            if isOctDigit d3 then
              some (octVal c * 64 + octVal d2 * 8 + octVal d3, r3)
            else some (octVal c * 8 + octVal d2, d3 :: r3)
        else some (octVal c, d2 :: r2)
    else none

/-- Parse the characters of a string literal up to (and consuming) the
closing quote, yielding the denoted bytes and the remaining characters.
Fuel-based so that it reduces in the kernel; the fuel is sufficient
whenever it exceeds the input length. -/
def parseCCharsF : Nat → List Char → Option (List Nat × List Char)
  | 0, _ => none
  | _ + 1, [] => none
  | f + 1, ch :: rest =>
    if ch = '"' then some ([], rest)
    else if ch = '\\' then
      match parseEsc rest with
      | none => none
      | some (b, r) =>
        match parseCCharsF f r with
        | none => none
        | some (bs, r2) => some (b :: bs, r2)
    else
      match parseCCharsF f rest with
      | none => none
      | some (bs, r2) => some (ch.toNat :: bs, r2)

/-- Parse a complete C string literal: opening quote, characters,
closing quote, end of input.  Yields the denoted bytes. -/
def parseCStringLit (cs : List Char) : Option (List Nat) :=
  match cs with
  | [] => none
  | c :: rest =>
    if c = '"' then
      match parseCCharsF (rest.length + 1) rest with
      | some (bs, []) => some bs
      | _ => none
    else none

def allDigits (l : List Char) : Bool := l.all Char.isDigit

/-- Value of a nonempty decimal digit string. -/
def foldDigits (l : List Char) : Nat :=
  l.foldl (fun a c => 10 * a + digitVal c) 0

/-- Parse a complete decimal integer literal (optional leading `-`). -/
def parseCInt (cs : List Char) : Option Int :=
  match cs with
  | [] => none
  | c :: rest =>
    if c = '-' then
      if rest ≠ [] ∧ allDigits rest then some (-(foldDigits rest : Int))
      else none
    else if allDigits (c :: rest) then some ((foldDigits (c :: rest) : Int))
    else none

/-- Parse an (optionally signed) decimal exponent-digit string. -/
def parseSignedDigits : List Char → Option Int
  | '-' :: r =>
    if r ≠ [] ∧ allDigits r then some (-(foldDigits r : Int)) else none
  | '+' :: r =>
    if r ≠ [] ∧ allDigits r then some ((foldDigits r : Int)) else none
  | r => if r ≠ [] ∧ allDigits r then some ((foldDigits r : Int)) else none

/-- Parse the optional exponent part (`e`/`E` then signed digits); empty
input means exponent `0`. -/
def parseExpPart : List Char → Option Int
  | [] => some 0
  | 'e' :: r => parseSignedDigits r
  | 'E' :: r => parseSignedDigits r
  | _ => none

/-- Parse an unsigned decimal floating literal (digits, optional
fraction, optional exponent) to its exact rational value. -/
def parseUNum (cs : List Char) : Option Frac :=
  let ip := cs.takeWhile Char.isDigit
  let rest := cs.dropWhile Char.isDigit
  match rest with
  | '.' :: r =>
    let fp := r.takeWhile Char.isDigit
    let rest2 := r.dropWhile Char.isDigit
    if ip.isEmpty && fp.isEmpty then none
    else
      (parseExpPart rest2).map (fun ex =>
        fracMulPow10
          ⟨(foldDigits ip * 10 ^ fp.length + foldDigits fp : Int),
           10 ^ fp.length⟩ ex)
  | _ =>
    if ip.isEmpty then none
    else (parseExpPart rest).map (fun ex =>
      fracMulPow10 ⟨(foldDigits ip : Int), 1⟩ ex)

/-- Parse a complete decimal floating literal (optional leading `-`). -/
def parseCNum (cs : List Char) : Option Frac :=
  match cs with
  | '-' :: r => (parseUNum r).map (fun x => ⟨-x.num, x.den⟩)
  | _ => parseUNum cs

/-- Parse a rendered constant back through the target language's literal
grammar: the keywords `nil`/`true`/`false` (`nil` as rendered for the
Lua value), a string literal, a floating literal (recognized by a `.`,
`e` or `E`, as in C), or an integer literal. -/
def parseConstLit (s : String) : Option KConst :=
  if s = "nil" then some KConst.nil
  else if s = "true" then some (KConst.boolean true)
  else if s = "false" then some (KConst.boolean false)
  else if s.data.getD 0 ' ' = '"' then
    (parseCStringLit s.data).map KConst.str
  else if s.data.any (fun c => c == '.' || c == 'e' || c == 'E') then
    (parseCNum s.data).map KConst.flt
  else (parseCInt s.data).map KConst.int

/-- Value equality of constants: floats compare by rational value
(a parsed `Frac` need not be in the same representation), everything
else structurally. -/
def kValEq : KConst → KConst → Bool
  | KConst.flt x, KConst.flt y => x.veq y
  | a, b => a == b

def optKValEq : Option KConst → Option KConst → Bool
  | some a, some b => kValEq a b
  | none, none => true
  | _, _ => false

/-! ## Chunk classification helpers for the theorems -/

/-- Boolean list prefix test (kernel-reducible). -/
def charPrefix : List Char → List Char → Bool
  | [], _ => true
  | _ :: _, [] => false
  | a :: as, b :: bs => a == b && charPrefix as bs

/-- A chunk that is one of the `goto label_%02d` lines emitted by the
`OP_FORLOOP`/`OP_FORPREP` blocks (both are printed with this exact
8-space indentation). -/
def isGotoChunk (s : String) : Bool :=
  charPrefix ("        goto label_").data s.data

/-- A chunk printed by the `%3d` entry format of `print_source_code`
(exactly three characters, digits and leading spaces). -/
def isNumChunk (s : String) : Bool :=
  s.data.length = 3 && s.data.all (fun c => c.isDigit || c == ' ')

/-- Read back the value of a `%3d` chunk. -/
def parse3 (s : String) : Nat := foldDigits (s.data.filter Char.isDigit)

/-- The characters a decimal rendering can contain. -/
def decChars : List Char := ['-', '0', '1', '2', '3', '4', '5', '6', '7', '8', '9']

/-- Bytes whose `PrintString` escape is re-read correctly by the C
string-literal grammar: bytes with a named escape or below 8 (where the
3-digit decimal escape coincides with octal), and printable bytes.
Bytes in `14..31` and `127..255` are emitted as 3-digit *decimal*
escapes, which C parses as *octal* — those do not round-trip. -/
def safeByte (c : Nat) : Bool := c < 14 || (32 ≤ c && c ≤ 126)

/-- The escape-chunk characters of a whole string. -/
def escData (s : List Nat) : List Char :=
  (s.map (fun c => (escByteChunk c).data)).flatten

/-- Which constants round-trip through the target-language grammar:
everything except floats (rendered to only 14 significant digits) and
strings with a byte in `14..31` or `≥ 127` (decimal escape read as
octal). -/
def goodK : KConst → Bool
  | KConst.flt _ => false
  | KConst.str s => s.all safeByte
  | _ => true

/-- The numeric entries of the emitted char-array initializer. -/
def sourceArrayEntries (bytes : List Nat) : List Nat :=
  (((print_source_code bytes).filter isNumChunk).map parse3)

/-! ## Inputs and auxiliary definitions used by the claim theorems -/

/-- The mandatory-to-support opcode families of spec §4.4:
move/load-immediate, the three return variants, the numeric-loop pair,
closure creation, and the two vararg opcodes. -/
def mandatoryOps : List OpCode :=
  [OP_MOVE, OP_LOADI, OP_RETURN, OP_RETURN0, OP_RETURN1,
   OP_FORLOOP, OP_FORPREP, OP_CLOSURE, OP_VARARG, OP_VARARGPREP]

/-- Modelled from the spec: whether an emitted assertion statement fails
when executed, as a function of whether the runtime's internal
assertions are compiled in (`lua_assert` of `llimits.h` is not under
`src/`; it expands to a no-op unless internal checks are enabled, while
C `assert(0)` always fails unless `NDEBUG`-stripped — the generated file
never defines `NDEBUG`, so it is modelled as always failing). -/
def chunkFails (internalAsserts : Bool) (s : String) : Bool :=
  if s = "    assert(0); /* TODO */\n" then true
  else if s = "    lua_assert(0);\n" then internalAsserts
  else false

/-- A statement chunk that fails under every assertion configuration. -/
def alwaysFails (s : String) : Bool :=
  chunkFails true s && chunkFails false s

/-- Some emitted statement of `body` is an always-failing assertion. -/
def alwaysFailingIn (body : Out) : Bool := body.any alwaysFails

/-- A one-instruction child prototype (`return` with no results). -/
def childProto (a : Nat) : Proto :=
  ⟨[mkABCk OP_RETURN0 0 0 0 0], [], [], [], "@in.lua", 1, 1, [1], a⟩

/-- A main prototype holding one `OP_CLOSURE` instruction over a child
at heap address `a`, as the loader builds for `f = function() end`. -/
def closureProto (a : Nat) : Proto :=
  ⟨[mkABx OP_CLOSURE 0 0, mkABCk OP_RETURN0 0 0 0 0], [],
   [childProto a], [some "_ENV"], "@in.lua", 0, 0, [1, 1], 256⟩

/-- A prototype with no `OP_CLOSURE` instruction, loaded at heap
address `a`. -/
def plainProto (a : Nat) : Proto :=
  ⟨[mkABCk OP_RETURN0 0 0 0 0], [], [], [some "_ENV"], "@in.lua", 0, 0,
   [1], a⟩

/-- A prototype whose instruction at position 1 is a direct jump with
offset 0 (resolved target: position 2, i.e. `label_02`), preceded by a
test instruction. -/
def testJmpProto : Proto :=
  ⟨[mkABCk OP_TEST 0 0 0 0, mksJ OP_JMP 0, mkABCk OP_RETURN0 0 0 0 0],
   [], [], [some "_ENV"], "@in.lua", 0, 0, [1, 1, 1], 64⟩

/-! # Lemmas and claim theorems -/

/-! ## Basic string and digit lemmas -/

theorem foldl_append_data (l : List String) :
    ∀ s : String, (l.foldl (fun r t => r ++ t) s).data =
      s.data ++ (l.map String.data).flatten := by
  induction l with
  | nil => intro s; simp
  | cons a as ih =>
    intro s
    simp [List.foldl, ih, String.data_append]

theorem join_data (l : List String) :
    (String.join l).data = (l.map String.data).flatten := by
  have h := foldl_append_data l ""
  simpa [String.join] using h

theorem charPrefix_append (p r : List Char) : charPrefix p (p ++ r) = true := by
  induction p with
  | nil => rfl
  | cons a as ih => simp [charPrefix, ih]

theorem natDigitsAux_lt10 : ∀ f n, ∀ d ∈ natDigitsAux f n, d < 10 := by
  intro f
  induction f with
  | zero => intro n d hd; simp [natDigitsAux] at hd
  | succ f ih =>
    intro n d hd
    by_cases h : n < 10
    · simp [natDigitsAux, h] at hd; omega
    · simp [natDigitsAux, h] at hd
      rcases hd with hd | hd
      · exact ih _ _ hd
      · omega

theorem natDigits_lt10 (n : Nat) : ∀ d ∈ natDigits n, d < 10 :=
  natDigitsAux_lt10 (n + 1) n

theorem natDigitsAux_val : ∀ f, ∀ n, n < f → ∀ acc : Nat,
    (natDigitsAux f n).foldl (fun a d => 10 * a + d) acc =
      10 ^ (natDigitsAux f n).length * acc + n := by
  intro f
  induction f with
  | zero => omega
  | succ f ih =>
    intro n hn acc
    by_cases h : n < 10
    · simp [natDigitsAux, h, List.foldl]
    · have hrec : n / 10 < f := by omega
      have ihh := ih (n / 10) hrec acc
      simp only [natDigitsAux, if_neg h, List.foldl_append, List.length_append,
        List.foldl, List.length, ihh]
      have h3 : 10 * (n / 10) + n % 10 = n := by omega
      calc 10 * (10 ^ (natDigitsAux f (n / 10)).length * acc + n / 10) + n % 10
          = 10 ^ (natDigitsAux f (n / 10)).length * 10 * acc +
              (10 * (n / 10) + n % 10) := by ring
        _ = 10 ^ ((natDigitsAux f (n / 10)).length + (1 + 0)) * acc + n := by
              rw [h3, pow_succ]

theorem natDigits_val (n : Nat) :
    (natDigits n).foldl (fun a d => 10 * a + d) 0 = n := by
  have := natDigitsAux_val (n + 1) n (by omega) 0
  simpa [natDigits] using this

theorem natDigitsAux_ne_nil : ∀ f n, n < f → natDigitsAux f n ≠ [] := by
  intro f
  induction f with
  | zero => omega
  | succ f ih =>
    intro n hn
    by_cases h : n < 10 <;> simp [natDigitsAux, h]

theorem natDigits_ne_nil (n : Nat) : natDigits n ≠ [] :=
  natDigitsAux_ne_nil (n + 1) n (by omega)

theorem digitVal_digitChar : ∀ d, d < 10 → digitVal (digitChar d) = d := by decide

theorem digitChar_mem_decChars : ∀ d, d < 10 → digitChar d ∈ decChars := by decide

theorem digitChar_isDigit : ∀ d, d < 10 → (digitChar d).isDigit = true := by decide

theorem fmtNat_chars (n : Nat) : ∀ ch ∈ (fmtNat n).data, ch ∈ decChars := by
  intro ch hch
  simp only [fmtNat, digitChars] at hch
  rcases List.mem_map.mp hch with ⟨d, hd, rfl⟩
  exact digitChar_mem_decChars d (natDigits_lt10 n d hd)

theorem fmtInt_chars (i : Int) : ∀ ch ∈ (fmtInt i).data, ch ∈ decChars := by
  intro ch hch
  by_cases h : i < 0
  · simp only [fmtInt, if_pos h, String.data_append] at hch
    rcases List.mem_append.mp hch with hch | hch
    · simp at hch; subst hch; decide
    · exact fmtNat_chars _ ch hch
  · simp only [fmtInt, if_neg h] at hch
    exact fmtNat_chars _ ch hch

theorem allDigits_fmtNat (n : Nat) : allDigits (fmtNat n).data = true := by
  simp only [allDigits, List.all_eq_true]
  intro ch hch
  simp only [fmtNat, digitChars] at hch
  rcases List.mem_map.mp hch with ⟨d, hd, rfl⟩
  exact digitChar_isDigit d (natDigits_lt10 n d hd)

theorem foldDigits_digitChars : ∀ ds : List Nat, (∀ d ∈ ds, d < 10) →
    ∀ acc : Nat, (digitChars ds).foldl (fun a c => 10 * a + digitVal c) acc =
      ds.foldl (fun a d => 10 * a + d) acc := by
  intro ds
  induction ds with
  | nil => intro _ acc; rfl
  | cons d ds ih =>
    intro h acc
    simp only [digitChars, List.map, List.foldl]
    rw [digitVal_digitChar d (h d (by simp))]
    exact ih (fun x hx => h x (by simp [hx])) _

theorem foldDigits_fmtNat (n : Nat) : foldDigits (fmtNat n).data = n := by
  simp only [foldDigits, fmtNat]
  rw [foldDigits_digitChars (natDigits n) (natDigits_lt10 n) 0]
  exact natDigits_val n

theorem fmtNat_data_ne_nil (n : Nat) : (fmtNat n).data ≠ [] := by
  simp only [fmtNat, digitChars]
  intro h
  exact natDigits_ne_nil n (List.map_eq_nil_iff.mp h)

/-! ## Integer literal round-trip -/

theorem decChars_not_special : ∀ ch ∈ decChars,
    ch ≠ '"' ∧ (ch == '.' || ch == 'e' || ch == 'E') = false := by decide

theorem parseCInt_fmtInt (i : Int) : parseCInt (fmtInt i).data = some i := by
  by_cases h : i < 0
  · have habs : fmtInt i = "-" ++ fmtNat i.natAbs := by simp [fmtInt, h]
    have hval : -(i.natAbs : Int) = i := by omega
    rw [habs, String.data_append]
    have hminus : ("-" : String).data = ['-'] := rfl
    rw [hminus, List.cons_append, List.nil_append]
    simp only [parseCInt]
    rw [if_pos trivial, if_pos ⟨fmtNat_data_ne_nil _, allDigits_fmtNat _⟩,
      foldDigits_fmtNat, hval]
  · have habs : fmtInt i = fmtNat i.natAbs := by simp [fmtInt, h]
    have hval : ((i.natAbs : Nat) : Int) = i := by omega
    rw [habs]
    rcases hds : (fmtNat i.natAbs).data with _ | ⟨c, rest⟩
    · exact absurd hds (fmtNat_data_ne_nil _)
    · have hall : allDigits (c :: rest) = true := by
        have := allDigits_fmtNat i.natAbs
        rwa [hds] at this
      have hdig : c.isDigit = true := by
        simp [allDigits] at hall
        exact hall.1
      have hcne : c ≠ '-' := by
        intro hceq
        rw [hceq] at hdig
        exact absurd hdig (by decide)
      have hfold : foldDigits (c :: rest) = i.natAbs := by
        have := foldDigits_fmtNat i.natAbs
        rwa [hds] at this
      simp only [parseCInt]
      rw [if_neg hcne, if_pos hall, hfold, hval]

/-! ## String literal round-trip -/

theorem printable_facts : ∀ c < 127, (32 ≤ c ∧ c ≠ 34 ∧ c ≠ 92) →
    Char.ofNat c ≠ '"' ∧ Char.ofNat c ≠ '\\' ∧ (Char.ofNat c).toNat = c := by
  decide

theorem escByteChunk_printable (c : Nat) (h1 : 32 ≤ c) (h2 : c ≤ 126)
    (h34 : c ≠ 34) (h92 : c ≠ 92) :
    escByteChunk c = String.mk [Char.ofNat c] := by
  simp only [escByteChunk]
  rw [if_neg h34, if_neg h92, if_neg (by omega : ¬c = 7),
    if_neg (by omega : ¬c = 8), if_neg (by omega : ¬c = 12),
    if_neg (by omega : ¬c = 10), if_neg (by omega : ¬c = 13),
    if_neg (by omega : ¬c = 9), if_neg (by omega : ¬c = 11),
    if_pos ⟨h1, h2⟩]

theorem parseCCharsF_esc_step (f b : Nat) (echars rest : List Char)
    (s : List Nat) (tail : List Char)
    (hesc : parseEsc (echars ++ rest) = some (b, rest))
    (hrec : parseCCharsF f rest = some (s, tail)) :
    parseCCharsF (f + 1) ('\\' :: (echars ++ rest)) = some (b :: s, tail) := by
  simp only [parseCCharsF]
  rw [if_neg (by decide : ¬('\\' : Char) = '"'), if_pos trivial, hesc]
  simp only [hrec]

theorem parseCCharsF_lit_step (f : Nat) (ch : Char) (rest : List Char)
    (s : List Nat) (tail : List Char)
    (h1 : ch ≠ '"') (h2 : ch ≠ '\\')
    (hrec : parseCCharsF f rest = some (s, tail)) :
    parseCCharsF (f + 1) (ch :: rest) = some (ch.toNat :: s, tail) := by
  simp only [parseCCharsF]
  rw [if_neg h1, if_neg h2, hrec]

theorem parseCCharsF_escData : ∀ s : List Nat,
    (∀ b ∈ s, safeByte b = true) → ∀ f, ∀ tail : List Char, s.length < f →
    parseCCharsF f (escData s ++ '"' :: tail) = some (s, tail) := by
  intro s
  induction s with
  | nil =>
    intro _ f tail hf
    cases f with
    | zero => omega
    | succ f => simp [escData, parseCCharsF]
  | cons c s ih =>
    intro hsafe f tail hf
    have hcsafe : safeByte c = true := hsafe c (by simp)
    have hs : ∀ b ∈ s, safeByte b = true := fun b hb => hsafe b (by simp [hb])
    cases f with
    | zero => omega
    | succ f =>
      have hf2 : s.length < f := by simp at hf; omega
      have hrec := ih hs f tail hf2
      have hesc : escData (c :: s) = (escByteChunk c).data ++ escData s := by
        simp [escData]
      rw [hesc, List.append_assoc]
      have hclass : c < 14 ∨ (32 ≤ c ∧ c ≤ 126) := by
        simp [safeByte] at hcsafe
        rcases hcsafe with h | h
        · exact Or.inl h
        · exact Or.inr h
      by_cases h14 : c < 14
      · interval_cases c
        · exact parseCCharsF_esc_step f 0 ['0', '0', '0'] _ s tail rfl hrec
        · exact parseCCharsF_esc_step f 1 ['0', '0', '1'] _ s tail rfl hrec
        · exact parseCCharsF_esc_step f 2 ['0', '0', '2'] _ s tail rfl hrec
        · exact parseCCharsF_esc_step f 3 ['0', '0', '3'] _ s tail rfl hrec
        · exact parseCCharsF_esc_step f 4 ['0', '0', '4'] _ s tail rfl hrec
        · exact parseCCharsF_esc_step f 5 ['0', '0', '5'] _ s tail rfl hrec
        · exact parseCCharsF_esc_step f 6 ['0', '0', '6'] _ s tail rfl hrec
        · exact parseCCharsF_esc_step f 7 ['a'] _ s tail rfl hrec
        · exact parseCCharsF_esc_step f 8 ['b'] _ s tail rfl hrec
        · exact parseCCharsF_esc_step f 9 ['t'] _ s tail rfl hrec
        · exact parseCCharsF_esc_step f 10 ['n'] _ s tail rfl hrec
        · exact parseCCharsF_esc_step f 11 ['v'] _ s tail rfl hrec
        · exact parseCCharsF_esc_step f 12 ['f'] _ s tail rfl hrec
        · exact parseCCharsF_esc_step f 13 ['r'] _ s tail rfl hrec
      · have h32 : 32 ≤ c ∧ c ≤ 126 := by
          rcases hclass with h | h
          · omega
          · exact h
        by_cases h34 : c = 34
        · subst h34
          exact parseCCharsF_esc_step f 34 ['"'] _ s tail rfl hrec
        · by_cases h92 : c = 92
          · subst h92
            exact parseCCharsF_esc_step f 92 ['\\'] _ s tail rfl hrec
          · have hfacts := printable_facts c (by omega) ⟨h32.1, h34, h92⟩
            rw [escByteChunk_printable c h32.1 h32.2 h34 h92]
            have hlit := parseCCharsF_lit_step f (Char.ofNat c)
              (escData s ++ '"' :: tail) s tail hfacts.1 hfacts.2.1 hrec
            rw [show (String.mk [Char.ofNat c]).data = [Char.ofNat c] from rfl]
            rw [List.cons_append, List.nil_append, hlit, hfacts.2.2]

theorem escByteChunk_data_ne_nil (c : Nat) : (escByteChunk c).data ≠ [] := by
  unfold escByteChunk
  split_ifs <;> simp [String.data_append]

theorem escData_length_ge (s : List Nat) : s.length ≤ (escData s).length := by
  induction s with
  | nil => simp [escData]
  | cons c s ih =>
    have h1 : escData (c :: s) = (escByteChunk c).data ++ escData s := by
      simp [escData]
    have h2 : 1 ≤ (escByteChunk c).data.length := by
      have := escByteChunk_data_ne_nil c
      cases hc : (escByteChunk c).data with
      | nil => exact absurd hc this
      | cons x xs => simp
    rw [h1]
    simp only [List.length_append, List.length_cons]
    omega

theorem renderConstant_str_data (s : List Nat) :
    (renderConstant (KConst.str s)).data = '"' :: (escData s ++ ['"']) := by
  simp only [renderConstant, constantChunks, PrintString, join_data, escData]
  simp [List.map_append, List.flatten_append, List.map_map]
  rfl

theorem parseCStringLit_render (s : List Nat)
    (h : ∀ b ∈ s, safeByte b = true) :
    parseCStringLit (renderConstant (KConst.str s)).data = some s := by
  rw [renderConstant_str_data]
  simp only [parseCStringLit, if_pos rfl]
  have hlen : s.length < (escData s ++ ['"']).length + 1 := by
    have := escData_length_ge s
    simp only [List.length_append, List.length_cons, List.length_nil]
    omega
  have hmain := parseCCharsF_escData s h ((escData s ++ ['"']).length + 1) [] hlen
  rw [show escData s ++ '"' :: ([] : List Char) = escData s ++ ['"'] from rfl] at hmain
  rw [hmain]
  rfl

theorem fmtInt_data_ne_nil (i : Int) : (fmtInt i).data ≠ [] := by
  by_cases h : i < 0
  · simp [fmtInt, h, String.data_append]
  · simp only [fmtInt, if_neg h]
    exact fmtNat_data_ne_nil _

theorem renderConstant_int (i : Int) :
    renderConstant (KConst.int i) = fmtInt i := by
  apply String.ext
  rw [show renderConstant (KConst.int i) = String.join [fmtInt i] from rfl,
    join_data]
  simp

theorem parseConstLit_int (i : Int) :
    parseConstLit (renderConstant (KConst.int i)) = some (KConst.int i) := by
  rw [renderConstant_int]
  have hchars := fmtInt_chars i
  have hne_nil : (fmtInt i).data ≠ [] := fmtInt_data_ne_nil i
  obtain ⟨c, rest, hds⟩ : ∃ c rest, (fmtInt i).data = c :: rest := by
    cases hd : (fmtInt i).data with
    | nil => exact absurd hd hne_nil
    | cons c rest => exact ⟨c, rest, rfl⟩
  have hc : c ∈ decChars := hchars c (by rw [hds]; simp)
  have hkw : ∀ w : String, w.data.getD 0 ' ' ∉ decChars → fmtInt i ≠ w := by
    intro w hw heq
    apply hw
    rw [← heq, hds]
    exact hc
  unfold parseConstLit
  rw [if_neg (hkw "nil" (by decide)), if_neg (hkw "true" (by decide)),
    if_neg (hkw "false" (by decide))]
  rw [if_neg (by
    rw [hds]
    intro hh
    simp only [List.getD_cons_zero] at hh
    exact (decChars_not_special c hc).1 hh)]
  rw [if_neg (by
    intro hany
    rcases List.any_eq_true.mp hany with ⟨ch, hmem, htest⟩
    have := (decChars_not_special ch (hchars ch hmem)).2
    rw [this] at htest
    exact absurd htest (by decide))]
  rw [parseCInt_fmtInt]
  rfl

theorem parseConstLit_str (s : List Nat) (h : ∀ b ∈ s, safeByte b = true) :
    parseConstLit (renderConstant (KConst.str s)) = some (KConst.str s) := by
  have hd := renderConstant_str_data s
  have hkw : ∀ w : String, w.data.getD 0 ' ' ≠ '"' →
      renderConstant (KConst.str s) ≠ w := by
    intro w hw heq
    apply hw
    rw [← heq, hd]
    rfl
  unfold parseConstLit
  rw [if_neg (hkw "nil" (by decide)), if_neg (hkw "true" (by decide)),
    if_neg (hkw "false" (by decide))]
  rw [if_pos (by rw [hd]; rfl)]
  rw [parseCStringLit_render s h]
  rfl

theorem parseConst_roundtrip (k : KConst) (h : goodK k = true) :
    parseConstLit (renderConstant k) = some k := by
  cases k with
  | nil => decide
  | boolean b => cases b <;> decide
  | flt x => simp [goodK] at h
  | int i => exact parseConstLit_int i
  | str s =>
    apply parseConstLit_str
    simp only [goodK, List.all_eq_true] at h
    exact h

/-! ## Lemmas about `print_source_code` -/

theorem isNumChunk_fmt3 : ∀ b < 256, isNumChunk (fmt3 b) = true := by decide

theorem parse3_fmt3 : ∀ b < 256, parse3 (fmt3 b) = b := by decide

theorem psc_loop_nums : ∀ bs : List Nat, (∀ b ∈ bs, b < 256) → ∀ col,
    ((psc_loop bs col).filter isNumChunk).map parse3 = bs ++ [0] := by
  intro bs
  induction bs with
  | nil =>
    intro _ col
    have hf := isNumChunk_fmt3 0 (by omega)
    by_cases hcol : col = 0 <;>
      simp [psc_loop, hcol, List.filter_append, List.filter, hf,
        (by decide : isNumChunk "  " = false),
        (by decide : isNumChunk "\n" = false),
        (by decide : parse3 (fmt3 0) = 0)]
  | cons c bs ih =>
    intro h col
    have hc : c < 256 := h c (by simp)
    have hrest : ∀ b ∈ bs, b < 256 := fun b hb => h b (by simp [hb])
    have hf := isNumChunk_fmt3 c hc
    have hp := parse3_fmt3 c hc
    by_cases h16 : col + 1 = 16 <;>
      by_cases hcol : col = 0 <;>
        simp [psc_loop, hcol, h16, List.filter_append, List.filter, hf, hp,
          (by decide : isNumChunk "  " = false),
          (by decide : isNumChunk ", " = false),
          (by decide : isNumChunk "\n" = false), ih hrest]

theorem sourceArrayEntries_eq (bytes : List Nat)
    (h : ∀ b ∈ bytes, b < 256) :
    sourceArrayEntries bytes = bytes ++ [0] := by
  have hloop := psc_loop_nums bytes h 0
  simp only [sourceArrayEntries, print_source_code, List.filter_append,
    List.map_append, List.filter_cons, List.filter_nil]
  rw [show isNumChunk ("static const char LUA_AOT_MODULE_SOURCE_CODE[] = \x7b\n") =
    false from by decide]
  rw [show isNumChunk ("\x7d;\n") = false from by decide]
  simpa using hloop

/-! ## Lemmas about the pre-order traversal (`create_functions`) -/

mutual
theorem create_functions_eq : ∀ (p : Proto) (n : Nat),
    create_functions p n =
      ((List.enumFrom n (preorder p)).flatMap
         (fun iq => create_function iq.2 iq.1),
       n + (preorder p).length)
  | ⟨c, k, children, u, s, l, ll, li, a⟩, n => by
    have hl := create_functions_list_eq children (n + 1)
    simp only [create_functions, preorder, hl, List.enumFrom_cons,
      List.flatMap_cons, List.length_cons, Prod.mk.injEq]
    exact ⟨trivial, by omega⟩
theorem create_functions_list_eq : ∀ (ps : List Proto) (n : Nat),
    create_functions_list ps n =
      ((List.enumFrom n (preorderList ps)).flatMap
         (fun iq => create_function iq.2 iq.1),
       n + (preorderList ps).length)
  | [], n => by simp [create_functions_list, preorderList]
  | q :: qs, n => by
    have h1 := create_functions_eq q n
    have h2 := create_functions_list_eq qs (n + (preorder q).length)
    simp only [create_functions_list, preorderList, h1, h2,
      List.enumFrom_append, List.flatMap_append, List.length_append,
      Prod.mk.injEq]
    exact ⟨trivial, by omega⟩
end

/-! ## Address-independence of the generator away from `OP_CLOSURE`

These congruence lemmas isolate the single place where the emitted bytes
depend on run-time heap addresses: the `%p` rendering in the
`OP_CLOSURE` branch of `print_opcode_comment`. -/

theorem opcodeList_length : opcodeList.length = 81 := by decide

theorem opcodeOfNat_closure :
    ∀ n, opcodeOfNat n = some OP_CLOSURE → n = opNum OP_CLOSURE := by
  intro n h
  by_cases hn : n < 81
  · have hball : ∀ m < 81, opcodeOfNat m = some OP_CLOSURE →
        m = opNum OP_CLOSURE := by decide
    exact hball n hn h
  · exfalso
    have : opcodeOfNat n = none := by
      simp only [opcodeOfNat]
      rw [List.get?_eq_none]
      rw [opcodeList_length]
      omega
    rw [this] at h
    exact Option.noConfusion h

theorem decode_not_closure (code : List Nat)
    (h : code.all (fun w => GET_OPCODE w != opNum OP_CLOSURE) = true)
    (pc : Nat) :
    opcodeOfNat (GET_OPCODE (code.getD pc 0)) ≠ some OP_CLOSURE := by
  intro hdec
  have heq := opcodeOfNat_closure _ hdec
  by_cases hpc : pc < code.length
  · have hmem : code.getD pc 0 ∈ code := by
      rw [List.getD_eq_getElem?_getD]
      rw [List.getElem?_eq_getElem hpc]
      exact List.getElem_mem hpc
    have := List.all_eq_true.mp h _ hmem
    simp only [bne_iff_ne, ne_eq] at this
    exact this heq
  · have hgd : code.getD pc 0 = 0 := by
      rw [List.getD_eq_getElem?_getD, List.getElem?_eq_none (by omega)]
      rfl
    rw [hgd] at heq
    exact absurd heq (by decide)

theorem opcodeCommentBody_congr (f₁ f₂ : Proto) (pc w : Nat)
    (o : Option OpCode)
    (hk : f₁.k = f₂.k) (hu : f₁.upvalNames = f₂.upvalNames)
    (ho : o ≠ some OP_CLOSURE) :
    opcodeCommentBody f₁ pc w o = opcodeCommentBody f₂ pc w o := by
  have hPC : ∀ i, PrintConstant f₁ i = PrintConstant f₂ i := by
    intro i
    simp [PrintConstant, hk]
  have hUV : ∀ x, UPVALNAME f₁ x = UPVALNAME f₂ x := by
    intro x
    simp [UPVALNAME, hu]
  cases o with
  | none => rfl
  | some op =>
    cases op <;>
      first
      | rfl
      | exact absurd rfl ho
      | simp only [opcodeCommentBody, hPC, hUV]

theorem print_opcode_comment_congr (f₁ f₂ : Proto) (pc : Nat)
    (hc : f₁.code = f₂.code) (hk : f₁.k = f₂.k)
    (hu : f₁.upvalNames = f₂.upvalNames) (hli : f₁.lineinfo = f₂.lineinfo)
    (ho : opcodeOfNat (GET_OPCODE (f₁.code.getD pc 0)) ≠ some OP_CLOSURE) :
    print_opcode_comment f₁ pc = print_opcode_comment f₂ pc := by
  simp only [print_opcode_comment, hc, hli]
  rw [opcodeCommentBody_congr f₁ f₂ pc (f₂.code.getD pc 0) _ hk hu
    (by rw [← hc]; exact ho)]

theorem pcEmission_congr (f₁ f₂ : Proto) (pc : Nat)
    (hc : f₁.code = f₂.code) (hk : f₁.k = f₂.k)
    (hu : f₁.upvalNames = f₂.upvalNames) (hli : f₁.lineinfo = f₂.lineinfo)
    (ho : opcodeOfNat (GET_OPCODE (f₁.code.getD pc 0)) ≠ some OP_CLOSURE) :
    pcEmission f₁ pc = pcEmission f₂ pc := by
  simp only [pcEmission, nextJumpChunks, skip1Chunks, hc]
  rw [print_opcode_comment_congr f₁ f₂ pc hc hk hu hli ho]

theorem create_function_congr (f₁ f₂ : Proto) (n : Nat)
    (hc : f₁.code = f₂.code) (hk : f₁.k = f₂.k)
    (hu : f₁.upvalNames = f₂.upvalNames) (hs : f₁.source = f₂.source)
    (hl : f₁.linedefined = f₂.linedefined)
    (hll : f₁.lastlinedefined = f₂.lastlinedefined)
    (hli : f₁.lineinfo = f₂.lineinfo)
    (hnc : f₁.code.all (fun w => GET_OPCODE w != opNum OP_CLOSURE) = true) :
    create_function f₁ n = create_function f₂ n := by
  have hpc : ∀ pc, pcEmission f₁ pc = pcEmission f₂ pc := by
    intro pc
    exact pcEmission_congr f₁ f₂ pc hc hk hu hli
      (decode_not_closure f₁.code hnc pc)
  simp only [create_function, hc, hs, hl, hll]
  rw [show (fun pc => pcEmission f₁ pc) = (fun pc => pcEmission f₂ pc) from
    funext hpc]

mutual
theorem create_functions_congr : ∀ (p₁ p₂ : Proto) (n : Nat),
    stripAddr p₁ = stripAddr p₂ → noClosureTree p₁ = true →
    create_functions p₁ n = create_functions p₂ n
  | ⟨c₁, k₁, ps₁, u₁, s₁, l₁, ll₁, li₁, a₁⟩,
    ⟨c₂, k₂, ps₂, u₂, s₂, l₂, ll₂, li₂, a₂⟩, n => by
    intro hstrip hnc
    simp only [stripAddr, StrippedProto.mk.injEq] at hstrip
    obtain ⟨hc, hk, hp, hu, hs, hl, hll, hli⟩ := hstrip
    simp only [noClosureTree, Bool.and_eq_true] at hnc
    have hcf := create_function_congr
      ⟨c₁, k₁, ps₁, u₁, s₁, l₁, ll₁, li₁, a₁⟩
      ⟨c₂, k₂, ps₂, u₂, s₂, l₂, ll₂, li₂, a₂⟩ n
      hc hk hu hs hl hll hli hnc.1
    have hlist := create_functions_list_congr ps₁ ps₂ (n + 1) hp hnc.2
    simp only [create_functions, hcf, hlist]
theorem create_functions_list_congr : ∀ (ps₁ ps₂ : List Proto) (n : Nat),
    stripAddrList ps₁ = stripAddrList ps₂ → noClosureList ps₁ = true →
    create_functions_list ps₁ n = create_functions_list ps₂ n
  | [], [], n => fun _ _ => rfl
  | [], q :: qs, n => by
    intro h _
    simp [stripAddrList] at h
  | q :: qs, [], n => by
    intro h _
    simp [stripAddrList] at h
  | q₁ :: qs₁, q₂ :: qs₂, n => by
    intro h hnc
    simp only [stripAddrList, List.cons.injEq] at h
    simp only [noClosureList, Bool.and_eq_true] at hnc
    have h1 := create_functions_congr q₁ q₂ n h.1 hnc.1
    have h2 := create_functions_list_congr qs₁ qs₂
      (create_functions q₂ n).2 h.2 hnc.2
    simp only [create_functions_list, h1, h2]
end

theorem print_functions_congr (p₁ p₂ : Proto)
    (hstrip : stripAddr p₁ = stripAddr p₂)
    (hnc : noClosureTree p₁ = true) :
    print_functions p₁ = print_functions p₂ := by
  simp only [print_functions, create_functions_congr p₁ p₂ 0 hstrip hnc]


theorem isGotoChunk_append (x y : String) :
    isGotoChunk ("        goto label_" ++ x ++ y) = true := by
  simp only [isGotoChunk, String.data_append, List.append_assoc]
  exact charPrefix_append _ _

/-! ## The claims -/

/-- C1: for every `OP_FORLOOP` instruction at position `pc` with
unsigned magnitude `Bx`, the emitted backward jumps (the only `goto`s in
its block, one on the integer path and one on the float path) target
`label_((pc + 1) - Bx)`; for every `OP_FORPREP` instruction at position
`pc` with magnitude `Bx`, the emitted skip-the-loop jumps target
`label_((pc + 1) + Bx + 1)`. -/
theorem claim_C1 :
    (∀ pc w : Nat, opcodeOfNat (GET_OPCODE w) = some OP_FORLOOP →
      (instrBodyCases pc w (opcodeOfNat (GET_OPCODE w))).filter isGotoChunk =
        ["        goto label_" ++ fmt02 ((pc : Int) + 1 - GETARG_Bx w) ++
           "; /* jump back */\n",
         "        goto label_" ++ fmt02 ((pc : Int) + 1 - GETARG_Bx w) ++
           "; /* jump back */\n"]) ∧
    (∀ pc w : Nat, opcodeOfNat (GET_OPCODE w) = some OP_FORPREP →
      (instrBodyCases pc w (opcodeOfNat (GET_OPCODE w))).filter isGotoChunk =
        ["        goto label_" ++ fmt02 ((pc : Int) + 1 + GETARG_Bx w + 1) ++
           "; /* skip the loop */\n",
         "        goto label_" ++ fmt02 ((pc : Int) + 1 + GETARG_Bx w + 1) ++
           "; /* skip the loop */\n"]) := by
  constructor
  · intro pc w h
    rw [h]
    simp +decide only [instrBodyCases, List.filter_cons, List.filter_nil,
      isGotoChunk_append, if_true, if_false]
  · intro pc w h
    rw [h]
    simp +decide only [instrBodyCases, List.filter_cons, List.filter_nil,
      isGotoChunk_append, if_true, if_false]

/-- Witness for C1 at the spec's own examples: a loop-step instruction
at position 20 with magnitude 6 jumps to `label_15` (`20+1-6`), and a
loop-prepare instruction at position 2 with magnitude 4 jumps to
`label_08` (`2+1+4+1`; the spec's §8 example says "position 7" but its
own formula gives 8). -/
theorem claim_C1_witness :
    (opcodeOfNat (GET_OPCODE (mkABx OP_FORLOOP 3 6)) = some OP_FORLOOP ∧
      (instrBodyCases 20 (mkABx OP_FORLOOP 3 6)
          (opcodeOfNat (GET_OPCODE (mkABx OP_FORLOOP 3 6)))).filter
          isGotoChunk =
        ["        goto label_15; /* jump back */\n",
         "        goto label_15; /* jump back */\n"]) ∧
    (opcodeOfNat (GET_OPCODE (mkABx OP_FORPREP 3 4)) = some OP_FORPREP ∧
      (instrBodyCases 2 (mkABx OP_FORPREP 3 4)
          (opcodeOfNat (GET_OPCODE (mkABx OP_FORPREP 3 4)))).filter
          isGotoChunk =
        ["        goto label_08; /* skip the loop */\n",
         "        goto label_08; /* skip the loop */\n"]) :=
  ⟨⟨by decide, (claim_C1.1 20 (mkABx OP_FORLOOP 3 6) (by decide)).trans
      (by decide)⟩,
   ⟨by decide, (claim_C1.2 2 (mkABx OP_FORPREP 3 4) (by decide)).trans
      (by decide)⟩⟩

/-- C2, counterexample: `OP_EXTRAARG` is outside the mandatory set, yet
its emitted block does not contain an always-failing assertion — its
`lua_assert(0)` is a no-op when the runtime's internal assertions are
disabled. -/
theorem claim_C2_counterexample :
    OP_EXTRAARG ∉ mandatoryOps ∧
    opcodeOfNat (GET_OPCODE (mkABx OP_EXTRAARG 0 0)) = some OP_EXTRAARG ∧
    alwaysFailingIn (instrBodyCases 0 (mkABx OP_EXTRAARG 0 0)
      (opcodeOfNat (GET_OPCODE (mkABx OP_EXTRAARG 0 0)))) = false := by
  refine ⟨by decide, by decide, by decide⟩

/-- C2, amended: for every instruction whose opcode is outside the
mandatory supported set — except `OP_EXTRAARG`, whose block holds only
the configuration-dependent `lua_assert(0)` — the translator emits the
single always-failing statement `assert(0); /* TODO */` in that
instruction's block (and likewise for opcode values outside the known
enumeration); the translator itself completes in all cases. -/
theorem claim_C2 :
    (∀ pc w : Nat, ∀ op : OpCode, opcodeOfNat (GET_OPCODE w) = some op →
      op ∉ mandatoryOps → op ≠ OP_EXTRAARG →
      instrBodyCases pc w (opcodeOfNat (GET_OPCODE w)) =
          ["    assert(0); /* TODO */\n"] ∧
        alwaysFailingIn (instrBodyCases pc w (opcodeOfNat (GET_OPCODE w))) =
          true) ∧
    (∀ pc w : Nat, opcodeOfNat (GET_OPCODE w) = none →
      instrBodyCases pc w (opcodeOfNat (GET_OPCODE w)) =
        ["    assert(0); /* TODO */\n"]) := by
  constructor
  · intro pc w op h h1 h2
    rw [h]
    cases op <;>
      first
      | exact absurd (by decide) h1
      | exact absurd rfl h2
      | exact ⟨rfl, rfl⟩
  · intro pc w h
    rw [h]
    rfl

/-- Witness for C2 at `OP_ADD` (an opcode outside the mandatory set). -/
theorem claim_C2_witness :
    (opcodeOfNat (GET_OPCODE (mkABCk OP_ADD 1 2 3 0)) = some OP_ADD ∧
      OP_ADD ∉ mandatoryOps ∧ OP_ADD ≠ OP_EXTRAARG) ∧
    (instrBodyCases 5 (mkABCk OP_ADD 1 2 3 0)
        (opcodeOfNat (GET_OPCODE (mkABCk OP_ADD 1 2 3 0))) =
        ["    assert(0); /* TODO */\n"] ∧
      alwaysFailingIn (instrBodyCases 5 (mkABCk OP_ADD 1 2 3 0)
        (opcodeOfNat (GET_OPCODE (mkABCk OP_ADD 1 2 3 0)))) = true) :=
  ⟨⟨by decide, by decide, by decide⟩,
   claim_C2.1 5 (mkABCk OP_ADD 1 2 3 0) OP_ADD (by decide) (by decide)
     (by decide)⟩

/-- C9: the `OP_EXTRAARG` block holds the runtime-configurable
`lua_assert(0)` while every other opcode outside the mandatory set gets
the unconditional `assert(0); /* TODO */`; with internal assertions
disabled the former is a no-op (the block contains no failing
statement), with them enabled it fails. -/
theorem claim_C9 :
    (∀ pc w : Nat, instrBodyCases pc w (some OP_EXTRAARG) =
      ["    lua_assert(0);\n"]) ∧
    (∀ pc w : Nat, ∀ op : OpCode, op ∉ mandatoryOps → op ≠ OP_EXTRAARG →
      instrBodyCases pc w (some op) = ["    assert(0); /* TODO */\n"]) ∧
    chunkFails false ("    lua_assert(0);\n") = false ∧
    chunkFails true ("    lua_assert(0);\n") = true ∧
    (∀ b, chunkFails b ("    assert(0); /* TODO */\n") = true) ∧
    (∀ pc w : Nat,
      (instrBodyCases pc w (some OP_EXTRAARG)).any (chunkFails false) =
        false) := by
  refine ⟨fun pc w => rfl, ?_, by decide, by decide, by decide,
    fun pc w => rfl⟩
  intro pc w op h1 h2
  cases op <;>
    first
    | exact absurd (by decide) h1
    | exact absurd rfl h2
    | rfl

/-- Witness for C9 at `OP_GETI`. -/
theorem claim_C9_witness :
    (OP_GETI ∉ mandatoryOps ∧ OP_GETI ≠ OP_EXTRAARG) ∧
    instrBodyCases 0 0 (some OP_GETI) = ["    assert(0); /* TODO */\n"] :=
  ⟨⟨by decide, by decide⟩, claim_C9.2.1 0 0 OP_GETI (by decide) (by decide)⟩

/-- C3: for every prototype tree, the emitted function-pointer table has
exactly one `magic_implementation_i,` entry per pre-order-visited
prototype, with `i` running sequentially `0 .. n-1`, followed by the
single `NULL` sentinel; and the native functions themselves are emitted
in exactly that pre-order with the same sequential identifiers
(`create_function q i` for the `i`-th prototype `q` of the
pre-order). -/
theorem claim_C3 : ∀ p : Proto,
    print_functions p =
      (create_functions p 0).1 ++
        ["static AotCompiledFunction LUA_AOT_FUNCTIONS[] = \x7b\n"] ++
        (List.range (preorder p).length).map
          (fun i => "  magic_implementation_" ++ fmt02 (i : Int) ++ ",\n") ++
        ["  NULL\n", "\x7d;\n"] ∧
    (create_functions p 0).1 =
      (List.enumFrom 0 (preorder p)).flatMap
        (fun iq => create_function iq.2 iq.1) ∧
    (create_functions p 0).2 = (preorder p).length := by
  intro p
  have h := create_functions_eq p 0
  refine ⟨?_, ?_, ?_⟩
  · simp only [print_functions, h]
    simp
  · rw [h]
  · rw [h]
    simp

/-- C6, counterexample: the emitted char-array is NOT exactly the input
bytes — for the one-byte input `[65]` the array holds `65, 0`: a
terminating `0` byte is appended after the input bytes. -/
theorem claim_C6_counterexample :
    sourceArrayEntries [65] ≠ [65] ∧ sourceArrayEntries [65] = [65, 0] := by
  refine ⟨by decide, by decide⟩

/-- C6, amended: the emitted char-array contains exactly the bytes of
the input file, in order and unaltered, followed by one appended `0`
terminator byte (and nothing else). -/
theorem claim_C6 : ∀ bytes : List Nat, (∀ b ∈ bytes, b < 256) →
    sourceArrayEntries bytes = bytes ++ [0] :=
  sourceArrayEntries_eq

/-- Witness for C6 on the two-byte input `"Hi"` = `[72, 105]`. -/
theorem claim_C6_witness :
    (∀ b ∈ [72, 105], b < 256) ∧
      sourceArrayEntries [72, 105] = [72, 105] ++ [0] :=
  ⟨by decide, claim_C6 [72, 105] (by decide)⟩

/-- C7: wrong argument count and a wrong extension do terminate with
exit code 1 as claimed, but an output path whose final component has no
`.` at all does NOT produce a fatal message: `get_module_name` leaves
`sep == NULL` and evaluates `strcmp(sep + 1, "c")`, reading address 1 —
undefined behavior (a crash), not a controlled `exit(1)`. -/
theorem claim_C7 :
    get_module_name ("foo") = ModNameResult.undefinedBehavior ∧
    main_run ["luaot", "in.lua", "foo"] (Except.error "") true "" none =
      RunResult.undefinedBehavior ∧
    exitCode RunResult.undefinedBehavior = none ∧
    get_module_name ("out.txt") =
      ModNameResult.fatal ("output file is not of a \"c\" file") ∧
    (∀ w, exitCode (RunResult.fatal
      ("output file is not of a \"c\" file") w) = some 1) ∧
    main_run ["luaot", "in.lua"] (Except.error "") true "" none =
      RunResult.usage ∧
    exitCode RunResult.usage = some 1 ∧
    get_module_name ("./foo/bar/frobnator.c") = ModNameResult.ok ("frobnator") := by
  refine ⟨by decide, by decide, rfl, by decide, fun w => rfl, by decide,
    rfl, by decide⟩

/-- C8, counterexample: for a function whose instruction at position 1
is a direct jump with offset 0 (resolved target `label_02`), the block
at position 0 receives only the placeholder binding
`LUA_AOT_NEXT_JUMP label_todo`; no chunk of the whole emitted function
binds the macro to the resolved target label. -/
theorem claim_C8_counterexample :
    GET_OPCODE (testJmpProto.code.getD 1 0) = opNum OP_JMP ∧
    GETARG_sJ (testJmpProto.code.getD 1 0) = 0 ∧
    ("  #define LUA_AOT_NEXT_JUMP label_todo\n") ∈
      pcEmission testJmpProto 0 ∧
    ("  #define LUA_AOT_NEXT_JUMP label_02\n") ∉
      create_function testJmpProto 0 := by
  refine ⟨by decide, by decide, by decide, by decide⟩

/-- C8, amended: the emitter does record, for every position `pc`,
whether the instruction at `pc + 1` is a direct jump — the
`LUA_AOT_NEXT_JUMP` macro is re-defined exactly in that case — but it
binds the macro to the fixed placeholder `label_todo`, not to the
jump's resolved target label (the macro's consumers are the
unimplemented test opcodes, so the placeholder is never referenced). -/
theorem claim_C8 : ∀ (f : Proto) (pc : Nat),
    (("  #define LUA_AOT_NEXT_JUMP label_todo\n") ∈ nextJumpChunks f pc ↔
      (pc + 1 < f.code.length ∧
        GET_OPCODE (f.code.getD (pc + 1) 0) = opNum OP_JMP)) ∧
    ("  #undef  LUA_AOT_NEXT_JUMP\n") ∈ nextJumpChunks f pc ∧
    (∀ s ∈ nextJumpChunks f pc,
      s = "  #undef  LUA_AOT_NEXT_JUMP\n" ∨
        s = "  #define LUA_AOT_NEXT_JUMP label_todo\n") := by
  intro f pc
  refine ⟨?_, ?_, ?_⟩
  · by_cases hc : pc + 1 < f.code.length ∧
        GET_OPCODE (f.code.getD (pc + 1) 0) = opNum OP_JMP <;>
      simp +decide [nextJumpChunks, hc]
  · simp [nextJumpChunks]
  · intro s hs
    simp only [nextJumpChunks, List.mem_append, List.mem_singleton] at hs
    rcases hs with hs | hs
    · exact Or.inl hs
    · right
      by_cases hc : pc + 1 < f.code.length ∧
          GET_OPCODE (f.code.getD (pc + 1) 0) = opNum OP_JMP
      · rw [if_pos hc] at hs
        simpa using hs
      · rw [if_neg hc] at hs
        simp at hs

/-- Witness for C8 on `testJmpProto` at position 0 (next is a jump) and
position 1 (next is not a jump). -/
theorem claim_C8_witness :
    ((("  #define LUA_AOT_NEXT_JUMP label_todo\n") ∈
        nextJumpChunks testJmpProto 0 ↔
      (0 + 1 < testJmpProto.code.length ∧
        GET_OPCODE (testJmpProto.code.getD (0 + 1) 0) = opNum OP_JMP)) ∧
      ("  #undef  LUA_AOT_NEXT_JUMP\n") ∈ nextJumpChunks testJmpProto 0 ∧
      (∀ s ∈ nextJumpChunks testJmpProto 0,
        s = "  #undef  LUA_AOT_NEXT_JUMP\n" ∨
          s = "  #define LUA_AOT_NEXT_JUMP label_todo\n")) ∧
    ("  #define LUA_AOT_NEXT_JUMP label_todo\n") ∉
      nextJumpChunks testJmpProto 1 :=
  ⟨claim_C8 testJmpProto 0, by decide⟩

/-- C10: with a valid module name, a loadable input, and a writable
output, the run in which the second `fopen` of the input fails ends as
`fatal_error` (exit 1) with the output file holding exactly the prefix
written so far — header inclusion, the functions, the table, and the
spacer lines — and the successful run appends exactly the source-code
array, the module-name binding, and the footer inclusion after that
same prefix. -/
theorem claim_C10 : ∀ (p : Proto) (m a0 a1 out oserr : String)
    (bytes : List Nat),
    get_module_name out = ModNameResult.ok m →
    main_run [a0, a1, out] (Except.ok p) true oserr none =
        RunResult.fatal ("could not open input file a second time")
          (["#include \"luaot_header.c\"\n", " \n"] ++
            print_functions p ++ [" \n"]) ∧
      exitCode (main_run [a0, a1, out] (Except.ok p) true oserr none) =
        some 1 ∧
      main_run [a0, a1, out] (Except.ok p) true oserr (some bytes) =
        RunResult.done ((["#include \"luaot_header.c\"\n", " \n"] ++
          print_functions p ++ [" \n"]) ++ print_source_code bytes ++
          [" \n", luaopenChunk m, " \n",
           "#include \"luaot_footer.c\"\n"]) := by
  intro p m a0 a1 out oserr bytes h
  refine ⟨?_, ?_, ?_⟩ <;> simp [main_run, h, exitCode]

/-- Witness for C10 on a one-instruction prototype and output path
`out.c`. -/
theorem claim_C10_witness :
    get_module_name ("out.c") = ModNameResult.ok ("out") ∧
    (main_run ["luaot", "in.lua", "out.c"] (Except.ok (plainProto 8))
          true "" none =
        RunResult.fatal ("could not open input file a second time")
          (["#include \"luaot_header.c\"\n", " \n"] ++
            print_functions (plainProto 8) ++ [" \n"]) ∧
      exitCode (main_run ["luaot", "in.lua", "out.c"]
          (Except.ok (plainProto 8)) true "" none) = some 1 ∧
      main_run ["luaot", "in.lua", "out.c"] (Except.ok (plainProto 8))
          true "" (some [65]) =
        RunResult.done ((["#include \"luaot_header.c\"\n", " \n"] ++
          print_functions (plainProto 8) ++ [" \n"]) ++
          print_source_code [65] ++
          [" \n", luaopenChunk ("out"), " \n",
           "#include \"luaot_footer.c\"\n"])) :=
  ⟨by decide,
   claim_C10 (plainProto 8) "out" "luaot" "in.lua" "out.c" "" [65]
     (by decide)⟩

/-- C4, counterexample: two runs on byte-identical input (the same
stripped prototype tree — here a one-closure chunk whose child
prototype the loader placed at heap address 16 in one run and 32 in the
other) produce different output bytes: the `OP_CLOSURE` diagnostic
comment embeds the child prototype's address via `%p`. -/
theorem claim_C4_counterexample :
    stripAddr (closureProto 16) = stripAddr (closureProto 32) ∧
    main_run ["luaot", "in.lua", "out.c"] (Except.ok (closureProto 16))
        true "" (some [65]) ≠
      main_run ["luaot", "in.lua", "out.c"] (Except.ok (closureProto 32))
        true "" (some [65]) := by
  refine ⟨rfl, by decide⟩

/-- C4, amended: generation is deterministic up to the `%p`-rendered
heap addresses in `OP_CLOSURE` comments: on byte-identical input
(equal stripped trees) containing no `OP_CLOSURE` instruction, two runs
produce byte-identical output whatever addresses the loader chose. -/
theorem claim_C4 : ∀ (p₁ p₂ : Proto) (argv : List String)
    (outOpen : Bool) (oserr : String) (second : Option (List Nat)),
    stripAddr p₁ = stripAddr p₂ → noClosureTree p₁ = true →
    main_run argv (Except.ok p₁) outOpen oserr second =
      main_run argv (Except.ok p₂) outOpen oserr second := by
  intro p₁ p₂ argv outOpen oserr second h1 h2
  simp only [main_run, print_functions_congr p₁ p₂ h1 h2]

/-- Witness for C4 on two closure-free runs whose prototype objects
live at different heap addresses. -/
theorem claim_C4_witness :
    stripAddr (plainProto 8) = stripAddr (plainProto 24) ∧
    noClosureTree (plainProto 8) = true ∧
    main_run ["luaot", "in.lua", "out.c"] (Except.ok (plainProto 8))
        true "" (some [65]) =
      main_run ["luaot", "in.lua", "out.c"] (Except.ok (plainProto 24))
        true "" (some [65]) :=
  ⟨rfl, by decide,
   claim_C4 (plainProto 8) (plainProto 24) ["luaot", "in.lua", "out.c"]
     true "" (some [65]) rfl (by decide)⟩

/-- C5, counterexample: the round trip `parse(render(c)) == c` fails on
the real code in two ways.  The string constant with the single byte 14
renders as `"\014"`, which the target language's octal-escape grammar
reads back as the byte 12; and the float constant `1 + 2⁻⁵²` renders
under `%.14g` as `1` (plus the forced marker, giving `1.0`), which
parses back to the float 1, a different value. -/
theorem claim_C5_counterexample :
    parseConstLit (renderConstant (KConst.str [14])) =
        some (KConst.str [12]) ∧
    optKValEq (parseConstLit (renderConstant (KConst.str [14])))
        (some (KConst.str [14])) = false ∧
    renderConstant (KConst.flt ⟨2 ^ 52 + 1, 2 ^ 52⟩) = "1.0" ∧
    optKValEq (parseConstLit (renderConstant
        (KConst.flt ⟨2 ^ 52 + 1, 2 ^ 52⟩)))
        (some (KConst.flt ⟨2 ^ 52 + 1, 2 ^ 52⟩)) = false := by
  refine ⟨by decide, by decide, by decide, by decide⟩

/-- C5, amended: `parse(render(c)) = c` holds for nil, boolean, 64-bit
integer, and string constants all of whose bytes are below 14 or
printable (`32..126`); strings with a byte in `14..31` or `≥ 127` are
emitted as 3-digit decimal escapes that the target grammar reads as
octal, and floats are rendered with only 14 significant digits
(`%.14g`), which does not separate all doubles.  The fractional-marker
rule does hold: a rendered float literal never consists solely of
digits and minus signs (`4.0` renders as `"4.0"`, with round trip by
value). -/
theorem claim_C5 :
    (∀ k : KConst, goodK k = true →
      parseConstLit (renderConstant k) = some k) ∧
    renderConstant (KConst.flt ⟨4, 1⟩) = "4.0" ∧
    optKValEq (parseConstLit (renderConstant (KConst.flt ⟨4, 1⟩)))
      (some (KConst.flt ⟨4, 1⟩)) = true ∧
    (∀ x : Frac, allDigitsOrMinus (renderConstant (KConst.flt x)) =
      false) := by
  refine ⟨parseConst_roundtrip, by decide, by decide, ?_⟩
  intro x
  by_cases hd : allDigitsOrMinus (fmtG14 x) = true
  · have hr : renderConstant (KConst.flt x) = fmtG14 x ++ ".0" := by
      apply String.ext
      rw [show renderConstant (KConst.flt x) =
        String.join ([fmtG14 x] ++ [".0"]) from by
          simp [renderConstant, constantChunks, hd]]
      rw [join_data]
      simp [String.data_append]
    rw [hr]
    simp only [allDigitsOrMinus, String.data_append, List.all_append]
    rw [show (".0" : String).data.all
      (fun ch => ch.isDigit || ch == '-') = false from by decide]
    simp
  · have hr : renderConstant (KConst.flt x) = fmtG14 x := by
      apply String.ext
      rw [show renderConstant (KConst.flt x) =
        String.join [fmtG14 x] from by
          simp [renderConstant, constantChunks, hd]]
      rw [join_data]
      simp
    rw [hr]
    simpa using hd

/-- Witness for C5 on a safe string and a negative integer. -/
theorem claim_C5_witness :
    goodK (KConst.str [65, 1, 10]) = true ∧
    parseConstLit (renderConstant (KConst.str [65, 1, 10])) =
      some (KConst.str [65, 1, 10]) ∧
    goodK (KConst.int (-42)) = true ∧
    parseConstLit (renderConstant (KConst.int (-42))) =
      some (KConst.int (-42)) :=
  ⟨by decide, claim_C5.1 (KConst.str [65, 1, 10]) (by decide),
   by decide, claim_C5.1 (KConst.int (-42)) (by decide)⟩
